import Mathlib

/-!
Verification development for the anthem-receiver repository.

Shallow embedding conventions:
* Python `bytes` values are modelled as `List Nat` (each element a byte value).
* Fallible Python code (functions that may `raise`) is modelled with `Except String`.
* Each definition is translated from the named source file/function; doc comments
  cite the source location.
-/

namespace AnthemReceiver

/-! ## Protocol constants — src/anthem_receiver/protocol/constants.py -/

/-- The magic bytes that follow the packet type in all packets (constants.py line 16). -/
def PACKET_MAGIC : List Nat := [0x89, 0x01]

/-- The terminating byte value for all packets (constants.py line 19). -/
def END_OF_PACKET : Nat := 0x0a

/-- The terminating byte as a one-byte string (constants.py line 22). -/
def END_OF_PACKET_BYTES : List Nat := [END_OF_PACKET]

/-- Maximum packet length in bytes (constants.py line 26). -/
def MAX_PACKET_LENGTH : Nat := 256

/-- Minimum packet length in bytes (constants.py line 29). -/
def MIN_PACKET_LENGTH : Nat := 6

/-- PacketType enum (constants.py lines 32-38). -/
inductive PacketType where
  | UNKNOWN
  | BASIC_COMMAND
  | ADVANCED_COMMAND
  | BASIC_RESPONSE
  | ADVANCED_RESPONSE
deriving DecidableEq, Repr

/-- `PacketType(b)` with the `ValueError -> UNKNOWN` fallback used by
`Packet.packet_type` (packet.py lines 67-73). -/
def PacketType.ofByte (b : Nat) : PacketType :=
  if b = 0x21 then .BASIC_COMMAND
  else if b = 0x3f then .ADVANCED_COMMAND
  else if b = 0x06 then .BASIC_RESPONSE
  else if b = 0x40 then .ADVANCED_RESPONSE
  else .UNKNOWN

/-! ## Packet — src/anthem_receiver/protocol/packet.py

A `Packet` is an immutable wrapper around its `raw_data` bytes; we model the
accessors directly as functions of the raw byte list. Python negative / sliced
indexing is total on the slices used here; the single-element accesses
(`raw_data[0]`, `raw_data[-1]`) are only ever reached by `validate`/`is_valid`
after the length lower bound has been checked, so a default of 0 for the empty
list is unobservable. -/

/-- `Packet.packet_type_byte` — `raw_data[0]` (packet.py line 64). -/
def Packet.packet_type_byte (raw : List Nat) : Nat := raw.headD 0

/-- `Packet.packet_type` (packet.py lines 67-73). -/
def Packet.packet_type (raw : List Nat) : PacketType :=
  PacketType.ofByte (Packet.packet_type_byte raw)

/-- `Packet.packet_magic` — `raw_data[1:3]` (packet.py line 78). -/
def Packet.packet_magic (raw : List Nat) : List Nat := (raw.drop 1).take 2

/-- `Packet.command_code` — `raw_data[3:5]` (packet.py line 83). -/
def Packet.command_code (raw : List Nat) : List Nat := (raw.drop 3).take 2

/-- `Packet.packet_payload` — `raw_data[5:-1]` (packet.py line 90). -/
def Packet.packet_payload (raw : List Nat) : List Nat := (raw.drop 5).dropLast

/-- `Packet.packet_final_byte` — `raw_data[-1]` (packet.py line 101). -/
def Packet.packet_final_byte (raw : List Nat) : Nat := raw.getLastD 0

/-- `Packet.is_valid` (packet.py lines 104-114). -/
def Packet.is_valid (raw : List Nat) : Bool :=
  if ¬ (MIN_PACKET_LENGTH ≤ raw.length ∧ raw.length ≤ MAX_PACKET_LENGTH) then false
  else if Packet.packet_magic raw ≠ PACKET_MAGIC then false
  else if Packet.packet_final_byte raw ≠ END_OF_PACKET then false
  else if Packet.packet_type raw = PacketType.UNKNOWN then false
  else true

/-- `Packet.validate` (packet.py lines 116-126); raising `AnthemReceiverError`
is modelled as returning `.error`. -/
def Packet.validate (raw : List Nat) : Except String Unit :=
  if raw.length < MIN_PACKET_LENGTH then .error ("Packet too short")
  else if MAX_PACKET_LENGTH < raw.length then .error ("Packet too long")
  else if Packet.packet_magic raw ≠ PACKET_MAGIC then .error ("Packet magic validator byte mismatch")
  else if Packet.packet_final_byte raw ≠ END_OF_PACKET then .error ("Packet does not end in newline")
  else if Packet.packet_type raw = PacketType.UNKNOWN then .error ("Unrecognized packet type byte")
  else .ok ()

/-- `Packet.is_command` (packet.py lines 139-141). -/
def Packet.is_command (raw : List Nat) : Bool :=
  Packet.is_valid raw &&
    (Packet.packet_type raw = PacketType.BASIC_COMMAND
      || Packet.packet_type raw = PacketType.ADVANCED_COMMAND)

/-- `Packet.is_advanced_command` (packet.py lines 134-136). -/
def Packet.is_advanced_command (raw : List Nat) : Bool :=
  Packet.is_valid raw && Packet.packet_type raw = PacketType.ADVANCED_COMMAND

theorem packetType_ofByte_unknown_iff (b : Nat) :
    PacketType.ofByte b = PacketType.UNKNOWN ↔ b ∉ [0x21, 0x3f, 0x06, 0x40] := by
  unfold PacketType.ofByte
  split_ifs with h1 h2 h3 h4 <;> simp_all

theorem validate_isOk_eq_is_valid (raw : List Nat) :
    (Packet.validate raw).isOk = Packet.is_valid raw := by
  unfold Packet.validate Packet.is_valid
  split_ifs <;> simp_all [Except.isOk, Except.toBool] <;> omega

/-- C1: `Packet(b).validate()` raises a protocol error iff the length is outside
[6,256], bytes 1-2 differ from the magic `0x89 0x01`, the final byte differs
from `0x0a`, or the first byte is not a known packet-type value; otherwise it
returns normally and `is_valid` is `True`. -/
theorem C1_validate_characterization (raw : List Nat) :
    ((Packet.validate raw).isOk = false ↔
      (raw.length < 6 ∨ 256 < raw.length ∨
        Packet.packet_magic raw ≠ [0x89, 0x01] ∨
        Packet.packet_final_byte raw ≠ 0x0a ∨
        Packet.packet_type_byte raw ∉ [0x21, 0x3f, 0x06, 0x40])) ∧
    ((Packet.validate raw).isOk = true → Packet.is_valid raw = true) := by
  constructor
  · rw [validate_isOk_eq_is_valid]
    unfold Packet.is_valid
    have hu := packetType_ofByte_unknown_iff (Packet.packet_type_byte raw)
    unfold Packet.packet_type
    split_ifs with h1 h2 h3 h4 <;>
      (simp_all [PACKET_MAGIC, END_OF_PACKET, MIN_PACKET_LENGTH, MAX_PACKET_LENGTH]) <;>
      omega
  · intro h
    rw [validate_isOk_eq_is_valid] at h
    exact h

/-- Closed witness for C1 at the `power.on` wire packet and at a too-short input. -/
theorem C1_validate_characterization_witness :
    (Packet.validate [0x21, 0x89, 0x01, 0x50, 0x57, 0x31, 0x0a]).isOk = true ∧
    Packet.is_valid [0x21, 0x89, 0x01, 0x50, 0x57, 0x31, 0x0a] = true ∧
    (Packet.validate [0x21, 0x89, 0x01]).isOk = false := by
  refine ⟨by decide, (C1_validate_characterization [0x21, 0x89, 0x01, 0x50, 0x57, 0x31, 0x0a]).2 (by decide), by decide⟩


/-! ## Command metadata catalog — src/anthem_receiver/protocol/command_meta.py

`CommandGroupMeta` / `CommandMeta` are built from the static `_group_metas`
literal (command_meta.py lines 725-1315). For each group we record the
constructor arguments the literal actually passes: name,
`command_code_and_group_prefix`, `response_payload_length` (`some 0` when the
keyword is omitted, matching the Python default), `models_str`, and the command
list (name, `command_additional_prefix`, `models_str`). `is_advanced` and
`payload_length` are never passed in the literal and keep their defaults
(`False` / `0`); command description strings are pure documentation and are
not recorded; the response maps are modelled separately below where the
emulator needs them. -/

structure CommandDef where
  name : String
  addlPfx : List Nat
  modelsStr : Option String
deriving DecidableEq, Repr

structure CommandGroupDef where
  name : String
  codeAndPfx : List Nat
  respLen : Option Nat
  modelsStr : Option String
  commands : List CommandDef
deriving DecidableEq, Repr

/-- `_C(...)` constructor shorthand (command_meta.py line 722). -/
def mkC (name : String) (addlPfx : List Nat) (modelsStr : Option String) : CommandDef :=
  ⟨name, addlPfx, modelsStr⟩

/-- `_G(...)` constructor shorthand (command_meta.py line 574). -/
def mkG (name : String) (codeAndPfx : List Nat) (respLen : Option Nat)
    (modelsStr : Option String) (commands : List CommandDef) : CommandGroupDef :=
  ⟨name, codeAndPfx, respLen, modelsStr, commands⟩

/-- The `_group_metas` literal (command_meta.py lines 725-1315), in declaration
order, transcribed group by group. -/
def group_metas : List CommandGroupDef := [
  mkG ("power") [0x50, 0x57] (some 0) none [
    mkC ("on") [0x31] none,
    mkC ("off") [0x30] none
  ],
  mkG ("set_input") [0x49, 0x50] (some 0) none [
    mkC ("hdmi_1") [0x36] none,
    mkC ("hdmi_2") [0x37] none,
    mkC ("component") [0x32] none,
    mkC ("s_video") [0x30] none,
    mkC ("video") [0x31] none,
    mkC ("pc") [0x33] none,
    mkC ("next") [0x2b] none,
    mkC ("previous") [0x2d] none
  ],
  mkG ("test_pattern") [0x54, 0x53] (some 0) none [
    mkC ("off") [0x30] none,
    mkC ("colour_bars") [0x31] none,
    mkC ("stair_step_black_and_white") [0x36] none,
    mkC ("stair_step_red") [0x37] none,
    mkC ("stair_step_green") [0x38] none,
    mkC ("stair_step_blue") [0x39] none,
    mkC ("crosshatch_green") [0x41] none
  ],
  mkG ("gamma") [0x47, 0x54] (some 0) none [
    mkC ("normal") [0x30] none,
    mkC ("a") [0x31] none,
    mkC ("b") [0x32] none,
    mkC ("c") [0x33] none,
    mkC ("d") [0x37] none,
    mkC ("custom_1") [0x34] none,
    mkC ("custom_2") [0x35] none,
    mkC ("custom_3") [0x36] none
  ],
  mkG ("gamma_value") [0x47, 0x50] (some 0) none [
    mkC ("1_8") [0x30] none,
    mkC ("1_9") [0x31] none,
    mkC ("2_0") [0x32] none,
    mkC ("2_1") [0x33] none,
    mkC ("2_2") [0x34] none,
    mkC ("2_3") [0x35] none,
    mkC ("2_4") [0x36] none,
    mkC ("2_5") [0x37] none,
    mkC ("2_6") [0x38] none
  ],
  mkG ("off_timer") [0x46, 0x55, 0x4f, 0x54] (some 0) none [
    mkC ("off") [0x30] none,
    mkC ("1_hour") [0x31] none,
    mkC ("2_hours") [0x32] none,
    mkC ("3_hours") [0x33] none,
    mkC ("4_hours") [0x34] none
  ],
  mkG ("lamp_power") [0x50, 0x4d, 0x4c, 0x50] (some 0) none [
    mkC ("normal") [0x30] none,
    mkC ("high") [0x31] none
  ],
  mkG ("infrared_remote_code") [0x53, 0x55, 0x52, 0x43] (some 0) none [
    mkC ("a") [0x30] none,
    mkC ("b") [0x31] none
  ],
  mkG ("trigger_output_set") [0x46, 0x55, 0x54, 0x52] (some 0) none [
    mkC ("off") [0x30] none,
    mkC ("on_power") [0x31] none,
    mkC ("on_anamorphic") [0x32] none
  ],
  mkG ("clear_motion_drive") [0x50, 0x4d, 0x43, 0x4d] (some 0) none [
    mkC ("off") [0x30] none,
    mkC ("mode_1") [0x31] (some ("HD550/950/990")),
    mkC ("mode_2") [0x32] (some ("HD550/950/990")),
    mkC ("mode_3") [0x33] (some ("X3/X7/X9/X30/X70/X90/RS40/50/60/45/55/65")),
    mkC ("mode_4") [0x34] (some ("X3/X7/X9/X30/X70/X90/RS40/50/60/45/55/65")),
    mkC ("inverse_telecine") [0x35] (some ("X3/X7/X9/X30/X70/X90/RS40/50/60/45/55/65"))
  ],
  mkG ("anamorphic") [0x49, 0x4e, 0x56, 0x53] (some 0) none [
    mkC ("off") [0x30] none,
    mkC ("a") [0x31] none,
    mkC ("b") [0x32] none
  ],
  mkG ("picture_mode_v1") [0x50, 0x4d, 0x50, 0x4d] (some 0) (some ("X30/X70/X90/RS45/55/65")) [
    mkC ("film") [0x30, 0x30] none,
    mkC ("cinema") [0x30, 0x31] none,
    mkC ("animation") [0x30, 0x32] none,
    mkC ("natural") [0x30, 0x33] none,
    mkC ("stage") [0x30, 0x34] none,
    mkC ("thx") [0x30, 0x36] (some ("X70/X90/RS55/65")),
    mkC ("3d") [0x30, 0x42] none,
    mkC ("user_1") [0x30, 0x43] none,
    mkC ("user_2") [0x30, 0x44] none,
    mkC ("user_3") [0x30, 0x45] none,
    mkC ("user_4") [0x30, 0x46] none,
    mkC ("user_5") [0x31, 0x30] none
  ],
  mkG ("picture_mode_v2") [0x50, 0x4d, 0x50, 0x4d] (some 0) (some ("X3/X7/X9/RS40/50/60")) [
    mkC ("film") [0x30] none,
    mkC ("cinema") [0x31] none,
    mkC ("animation") [0x32] none,
    mkC ("natural") [0x33] none,
    mkC ("stage") [0x34] none,
    mkC ("3d") [0x45] none,
    mkC ("user_1") [0x36] none,
    mkC ("user_2") [0x37] none,
    mkC ("thx") [0x39] (some ("X7/X9/RS50/60"))
  ],
  mkG ("picture_mode_v3") [0x50, 0x4d, 0x50, 0x4d] (some 0) (some ("HD350/750/550/950/990/RS10/20/15/25/35")) [
    mkC ("cinema_1") [0x30] none,
    mkC ("cinema_2") [0x31] none,
    mkC ("cinema_3") [0x32] none,
    mkC ("natural") [0x33] none,
    mkC ("stage") [0x34] none,
    mkC ("user_1") [0x36] none,
    mkC ("user_2") [0x37] none,
    mkC ("thx") [0x39] (some ("HD750/950/990/RS20/25/35"))
  ],
  mkG ("colour_profile") [0x50, 0x4d, 0x50, 0x52] (some 0) none [
    mkC ("off") [0x30, 0x30] none,
    mkC ("film_1") [0x30, 0x31] none,
    mkC ("film_2") [0x30, 0x32] none,
    mkC ("standard") [0x30, 0x33] none,
    mkC ("cinema_1") [0x30, 0x34] none,
    mkC ("cinema_2") [0x30, 0x35] none,
    mkC ("anime_1") [0x30, 0x36] none,
    mkC ("anime_2") [0x30, 0x37] none,
    mkC ("video") [0x30, 0x38] none,
    mkC ("vivid") [0x30, 0x39] none,
    mkC ("adobe") [0x31, 0x41] none,
    mkC ("stage") [0x31, 0x42] none,
    mkC ("3d") [0x31, 0x43] none,
    mkC ("thx") [0x31, 0x44] none
  ],
  mkG ("3d_format") [0x49, 0x53, 0x33, 0x44] (some 0) none [
    mkC ("off") [0x30] none,
    mkC ("auto") [0x31] none,
    mkC ("frame_packing") [0x32] none,
    mkC ("side_by_side") [0x33] none,
    mkC ("top_and_bottom") [0x34] none
  ],
  mkG ("2d_to_3d_conversion") [0x49, 0x53, 0x33, 0x43] (some 0) none [
    mkC ("off") [0x30] none,
    mkC ("on") [0x31] none
  ],
  mkG ("3d_subtitle_correction") [0x49, 0x53, 0x33, 0x54] (some 0) none [
    mkC ("off") [0x31] none,
    mkC ("on") [0x30] none
  ],
  mkG ("lens_memory") [0x49, 0x4e, 0x4d] (some 0) none [
    mkC ("save_1") [0x53, 0x30] none,
    mkC ("save_2") [0x53, 0x31] none,
    mkC ("save_3") [0x53, 0x32] none,
    mkC ("select_1") [0x4c, 0x30] none,
    mkC ("select_2") [0x4c, 0x31] none,
    mkC ("select_3") [0x4c, 0x32] none
  ],
  mkG ("test_command") [0x00, 0x00] (some 0) none [
    mkC ("null_command") [] none
  ],
  mkG ("remote_control") [0x52, 0x43, 0x37, 0x33] (some 0) none [
    mkC ("3d_setting") [0x44, 0x35] (some ("X30/X70/X90/RS45/55/65")),
    mkC ("3d_format_next") [0x44, 0x36] (some ("X30/X70/X90/RS45/55/65")),
    mkC ("advanced_picture_adjust") [0x37, 0x33] (some ("HD550/950/990/X3/X7/X9/X30/X70/X90/RS15/25/35/40/50/60/45/55/65")),
    mkC ("anamorphic_off") [0x32, 0x34] (some ("X3/X7/X9/X30/X70/X90/RS40/50/60/45/55/65")),
    mkC ("vertical_stretch_off") [0x32, 0x34] (some ("HD350/550/750/950/990/RS10/15/20/25/35")),
    mkC ("anamorphic_a") [0x32, 0x33] (some ("X3/X7/X9/X30/X70/X90/RS40/50/60/45/55/65")),
    mkC ("vertical_stretch_on") [0x32, 0x33] (some ("HD350/550/750/950/990/RS10/15/20/25/35")),
    mkC ("anamorphic_b") [0x32, 0x42] (some ("X3/X7/X9/X30/X70/X90/RS40/50/60/45/55/65")),
    mkC ("anamorphic_next") [0x43, 0x35] (some ("X3/X7/X9/X30/X70/X90/RS40/50/60/45/55/65")),
    mkC ("aspect_16_9") [0x32, 0x36] none,
    mkC ("aspect_4_3") [0x32, 0x35] none,
    mkC ("aspect_zoom") [0x32, 0x37] none,
    mkC ("aspect_auto") [0x41, 0x45] (some ("X3/X7/X9/X30/X70/X90/RS40/50/60/45/55/65")),
    mkC ("aspect_pc_full") [0x42, 0x30] (some ("X3/X7/X9/X30/X70/X90/RS40/50/60/45/55/65")),
    mkC ("aspect_pc_just") [0x41, 0x46] (some ("X3/X7/X9/X30/X70/X90/RS40/50/60/45/55/65")),
    mkC ("aspect_up") [0x37, 0x37] none,
    mkC ("auto_align") [0x31, 0x33] (some ("HD750/950/990/X7/X9/X70/X90/RS20/25/35/50/60/55/65")),
    mkC ("auto_lens_centre") [0x43, 0x39] (some ("X3/X7/X9/X70/X90/RS50/60/45/55/65")),
    mkC ("back") [0x30, 0x33] none,
    mkC ("bnr_off") [0x31, 0x30] none,
    mkC ("bnr_on") [0x30, 0x46] none,
    mkC ("bright_level_down") [0x41, 0x33] (some ("X7/X9/X70/X90/RS50/60/55/65")),
    mkC ("bright_level_up") [0x41, 0x32] (some ("X7/X9/X70/X90/RS50/60/55/65")),
    mkC ("brightness_down") [0x37, 0x42] none,
    mkC ("brightness_up") [0x37, 0x41] none,
    mkC ("brightness_adj") [0x30, 0x39] none,
    mkC ("cec_off") [0x35, 0x37] none,
    mkC ("cec_on") [0x35, 0x36] none,
    mkC ("cmd_next") [0x38, 0x41] (some ("X3/X7/X9/X30/X70/X90/RS40/50/60/45/55/65")),
    mkC ("cmd_off") [0x34, 0x37] (some ("X3/X7/X9/X30/X70/X90/RS40/50/60/45/55/65")),
    mkC ("cmd_mode_1") [0x43, 0x45] (some ("X3/X7/X9/X30/X70/X90/RS40/50/60/45/55/65")),
    mkC ("cmd_mode_2") [0x43, 0x46] (some ("X3/X7/X9/X30/X70/X90/RS40/50/60/45/55/65")),
    mkC ("cmd_mode_3") [0x34, 0x38] (some ("X3/X7/X9/X30/X70/X90/RS40/50/60/45/55/65")),
    mkC ("cmd_mode_4") [0x34, 0x39] (some ("X3/X7/X9/X30/X70/X90/RS40/50/60/45/55/65")),
    mkC ("cmd_inverse_telecine") [0x34, 0x41] (some ("X3/X7/X9/X30/X70/X90/RS40/50/60/45/55/65")),
    mkC ("colour_down") [0x37, 0x44] none,
    mkC ("colour_up") [0x37, 0x43] none,
    mkC ("colour_adj") [0x31, 0x35] none,
    mkC ("colour_management_off") [0x36, 0x30] (some ("HD750/950/990/X7/X9/RS20/25/35/50/60/55/65")),
    mkC ("colour_management_custom_1") [0x36, 0x31] (some ("HD750/950/990/X7/X9/RS20/25/35/50/60/55/65")),
    mkC ("colour_management_custom_2") [0x36, 0x32] (some ("HD750/950/990/X7/X9/RS20/25/35/50/60/55/65")),
    mkC ("colour_management_custom_3") [0x36, 0x33] (some ("HD750/950/990/X7/X9/RS20/25/35/50/60/55/65")),
    mkC ("colour_management_next") [0x38, 0x39] (some ("X7/X9/X70/X90/RS50/60/55/65")),
    mkC ("colour_profile_next") [0x38, 0x38] (some ("X7/X9/X90/RS50/60/55/65")),
    mkC ("colour_space_next") [0x43, 0x44] (some ("X3/X30/RS40/RS45")),
    mkC ("colour_temp_5800k") [0x34, 0x45] (some ("HD350/550/750/950/990/RS10/15/20/25/35")),
    mkC ("colour_temp_6500k") [0x34, 0x46] none,
    mkC ("colour_temp_7500k") [0x35, 0x30] (some ("HD350/550/750/950/990/RS10/15/20/25/35")),
    mkC ("colour_temp_9300k") [0x35, 0x31] (some ("HD350/550/750/950/990/RS10/15/20/25/35")),
    mkC ("colour_temp_custom_1") [0x35, 0x33] none,
    mkC ("colour_temp_custom_2") [0x35, 0x34] none,
    mkC ("colour_temp_custom_3") [0x35, 0x35] none,
    mkC ("colour_temp_high_bright") [0x35, 0x32] (some ("HD350/550/750/950/990/X3/X30/RS10/15/20/25/35/40/45")),
    mkC ("colour_temp_next") [0x37, 0x36] none,
    mkC ("colour_temperature_gain_blue_down") [0x39, 0x31] (some ("X3/X7/X9/X30/X70/X90/RS40/50/60/45/55/65")),
    mkC ("colour_temperature_gain_blue_up") [0x39, 0x30] (some ("X3/X7/X9/X30/X70/X90/RS40/50/60/45/55/65")),
    mkC ("colour_temperature_gain_green_down") [0x38, 0x46] (some ("X3/X7/X9/X30/X70/X90/RS40/50/60/45/55/65")),
    mkC ("colour_temperature_gain_green_up") [0x38, 0x45] (some ("X3/X7/X9/X30/X70/X90/RS40/50/60/45/55/65")),
    mkC ("colour_temperature_gain_red_down") [0x38, 0x44] (some ("X3/X7/X9/X30/X70/X90/RS40/50/60/45/55/65")),
    mkC ("colour_temperature_gain_red_up") [0x38, 0x43] (some ("X3/X7/X9/X30/X70/X90/RS40/50/60/45/55/65")),
    mkC ("colour_temperature_offset_blue_down") [0x39, 0x37] (some ("X3/X7/X9/X30/X70/X90/RS40/50/60/45/55/65")),
    mkC ("colour_temperature_offset_blue_up") [0x39, 0x36] (some ("X3/X7/X9/X30/X70/X90/RS40/50/60/45/55/65")),
    mkC ("colour_temperature_offset_green_down") [0x39, 0x35] (some ("X3/X7/X9/X30/X70/X90/RS40/50/60/45/55/65")),
    mkC ("colour_temperature_offset_green_up") [0x39, 0x34] (some ("X3/X7/X9/X30/X70/X90/RS40/50/60/45/55/65")),
    mkC ("colour_temperature_offset_red_down") [0x39, 0x33] (some ("X3/X7/X9/X30/X70/X90/RS40/50/60/45/55/65")),
    mkC ("colour_temperature_offset_red_up") [0x39, 0x32] (some ("X3/X7/X9/X30/X70/X90/RS40/50/60/45/55/65")),
    mkC ("contrast_down") [0x37, 0x39] none,
    mkC ("contrast_up") [0x37, 0x38] none,
    mkC ("contrast_adj") [0x30, 0x41] none,
    mkC ("cti_off") [0x35, 0x43] (some ("HD350/550/750/950/990/RS10/15/20/25/35")),
    mkC ("cti_low") [0x35, 0x44] (some ("HD350/550/750/950/990/RS10/15/20/25/35")),
    mkC ("cti_middle") [0x35, 0x45] (some ("HD350/550/750/950/990/RS10/15/20/25/35")),
    mkC ("cti_high") [0x35, 0x46] (some ("HD350/550/750/950/990/RS10/15/20/25/35")),
    mkC ("cursor_down") [0x30, 0x32] none,
    mkC ("cursor_left") [0x33, 0x36] none,
    mkC ("cursor_right") [0x33, 0x34] none,
    mkC ("cursor_up") [0x30, 0x31] none,
    mkC ("dark_level_down") [0x41, 0x35] (some ("X7/X9/X70/X90/RS50/60/55/65")),
    mkC ("dark_level_up") [0x41, 0x34] (some ("X7/X9/X70/X90/RS50/60/55/65")),
    mkC ("detail_enhance_down") [0x31, 0x32] none,
    mkC ("detail_enhance_up") [0x31, 0x31] none,
    mkC ("picture_tone_blue_down") [0x41, 0x31] (some ("X7/X9/RS50/60/X70/X90/RS55/65")),
    mkC ("picture_tone_blue_up") [0x41, 0x30] (some ("X7/X9/RS50/60/X70/X90/RS55/65")),
    mkC ("picture_tone_green_down") [0x39, 0x46] (some ("X7/X9/RS50/60/X70/X90/RS55/65")),
    mkC ("picture_tone_green_up") [0x39, 0x45] (some ("X7/X9/RS50/60/X70/X90/RS55/65")),
    mkC ("picture_tone_red_down") [0x39, 0x44] (some ("X7/X9/RS50/60/X70/X90/RS55/65")),
    mkC ("picture_tone_red_up") [0x39, 0x43] (some ("X7/X9/RS50/60/X70/X90/RS55/65")),
    mkC ("picture_tone_white_down") [0x39, 0x42] (some ("X7/X9/RS50/60/X70/X90/RS55/65")),
    mkC ("picture_tone_white_up") [0x39, 0x41] (some ("X7/X9/RS50/60/X70/X90/RS55/65")),
    mkC ("gamma_a") [0x33, 0x39] none,
    mkC ("gamma_b") [0x33, 0x41] none,
    mkC ("gamma_c") [0x33, 0x42] none,
    mkC ("gamma_custom_1") [0x33, 0x43] none,
    mkC ("gamma_custom_2") [0x33, 0x44] none,
    mkC ("gamma_custom_3") [0x33, 0x45] none,
    mkC ("gamma_d") [0x33, 0x46] (some ("HD550/950/990/X3/X7/X9/X30/X70/X90/RS15/25/35/40/50/60/45/55/65")),
    mkC ("gamma_normal") [0x33, 0x38] none,
    mkC ("gamma_next") [0x37, 0x35] none,
    mkC ("hide_off") [0x44, 0x31] (some ("X3/X7/X9/X30/X70/X90/RS40/50/60/45/55/65")),
    mkC ("hide_on") [0x44, 0x30] (some ("X3/X7/X9/X30/X70/X90/RS40/50/60/45/55/65")),
    mkC ("hide") [0x31, 0x44] none,
    mkC ("horizontal_position_down") [0x41, 0x42] (some ("X3/X7/X9/X30/X70/X90/RS40/50/60/45/55/65")),
    mkC ("horizontal_position_up") [0x41, 0x41] (some ("X3/X7/X9/X30/X70/X90/RS40/50/60/45/55/65")),
    mkC ("information") [0x37, 0x34] none,
    mkC ("input_component") [0x34, 0x44] none,
    mkC ("input_hdmi_1") [0x37, 0x30] none,
    mkC ("input_hdmi_2") [0x37, 0x31] none,
    mkC ("input_pc") [0x34, 0x36] (some ("HD750/950/990/X7/X9/X70/X90/RS20/25/35/50/60/55/65")),
    mkC ("input_s_video") [0x34, 0x43] (some ("HD350/550/750/950/990")),
    mkC ("input_video") [0x34, 0x42] (some ("HD350/550/750/950/990")),
    mkC ("input_next") [0x30, 0x38] none,
    mkC ("isf_day") [0x36, 0x34] (some ("X7/X9/X70/X90/RS50/60/55/65")),
    mkC ("isf_night") [0x36, 0x35] (some ("X7/X9/X70/X90/RS50/60/55/65")),
    mkC ("isf_off") [0x35, 0x41] (some ("HD950/990/X7/X9/X70/X90/RS25/35/50/60/55/65")),
    mkC ("isf_on") [0x35, 0x42] (some ("HD950/990/X7/X9/X70/X90/RS25/35/50/60/55/65")),
    mkC ("keystone_correction_horizontal_down") [0x34, 0x31] none,
    mkC ("keystone_correction_horizontal_up") [0x34, 0x30] none,
    mkC ("keystone_correction_vertical_down") [0x31, 0x43] none,
    mkC ("keystone_correction_vertical_up") [0x31, 0x42] none,
    mkC ("lens_aperture_1") [0x32, 0x38] (some ("HD350/HD550")),
    mkC ("lens_aperture_2") [0x32, 0x39] (some ("HD350/HD550")),
    mkC ("lens_aperture_3") [0x32, 0x41] (some ("HD350/HD550")),
    mkC ("lens_aperture_down") [0x31, 0x46] (some ("X3/X7/X9/X30/X70/X90/RS40/50/60/45/55/65")),
    mkC ("lens_aperture_up") [0x31, 0x45] (some ("X3/X7/X9/X30/X70/X90/RS40/50/60/45/55/65")),
    mkC ("lens_aperture_adj") [0x32, 0x30] (some ("HD350/750/950/990/RS10/20/25/35/X3/X7/X9/X30/X70/X90/RS40/50/60/45/55/65/HD550/RS15")),
    mkC ("lens_control_next") [0x33, 0x30] none,
    mkC ("lens_focus_down") [0x33, 0x32] none,
    mkC ("lens_focus_up") [0x33, 0x31] none,
    mkC ("lens_memory_next") [0x44, 0x34] (some ("X30/X70/X90/RS45/55/65")),
    mkC ("lens_memory_1") [0x44, 0x38] (some ("X30/X70/X90/RS45/55/65")),
    mkC ("lens_memory_2") [0x44, 0x39] (some ("X30/X70/X90/RS45/55/65")),
    mkC ("lens_memory_3") [0x44, 0x41] (some ("X30/X70/X90/RS45/55/65")),
    mkC ("lens_shift_down") [0x32, 0x32] none,
    mkC ("lens_shift_left") [0x34, 0x34] none,
    mkC ("lens_shift_right") [0x34, 0x33] none,
    mkC ("lens_shift_up") [0x32, 0x31] none,
    mkC ("lens_zoom_in") [0x33, 0x35] none,
    mkC ("lens_zoom_out") [0x33, 0x37] none,
    mkC ("mask_bottom_down") [0x42, 0x38] (some ("X3/X7/X9/X30/X70/X90/RS40/50/60/45/55/65")),
    mkC ("mask_bottom_up") [0x42, 0x37] (some ("X3/X7/X9/X30/X70/X90/RS40/50/60/45/55/65")),
    mkC ("mask_left_down") [0x42, 0x32] (some ("X3/X7/X9/X30/X70/X90/RS40/50/60/45/55/65")),
    mkC ("mask_left_up") [0x42, 0x31] (some ("X3/X7/X9/X30/X70/X90/RS40/50/60/45/55/65")),
    mkC ("mask_right_down") [0x42, 0x34] (some ("X3/X7/X9/X30/X70/X90/RS40/50/60/45/55/65")),
    mkC ("mask_right_up") [0x42, 0x33] (some ("X3/X7/X9/X30/X70/X90/RS40/50/60/45/55/65")),
    mkC ("mask_top_down") [0x42, 0x36] (some ("X3/X7/X9/X30/X70/X90/RS40/50/60/45/55/65")),
    mkC ("mask_top_up") [0x42, 0x35] (some ("X3/X7/X9/X30/X70/X90/RS40/50/60/45/55/65")),
    mkC ("menu") [0x32, 0x45] none,
    mkC ("menu_position") [0x34, 0x32] (some ("HD550/950/990/X3/X7/X9/X30/X70/X90/RS15/25/35/40/50/60/45/55/65")),
    mkC ("mnr_down") [0x30, 0x45] none,
    mkC ("mnr_up") [0x30, 0x44] none,
    mkC ("nr") [0x31, 0x38] (some ("HD350/550/750/950/990/RS10/15/20/25/35")),
    mkC ("ok") [0x32, 0x46] none,
    mkC ("phase_down") [0x41, 0x39] (some ("X7/X9/X70/X90/RS50/60/55/65")),
    mkC ("phase_up") [0x41, 0x38] (some ("X7/X9/X70/X90/RS50/60/55/65")),
    mkC ("picture_adjust") [0x37, 0x32] (some ("HD550/750/990/X3/X7/X9/X30/X70/X90/RS15/25/35/40/50/60/45/55/65")),
    mkC ("picture_mode_3d") [0x38, 0x37] (some ("X3/X7/X9/X30/X70/X90/RS40/50/60/45/55/65")),
    mkC ("picture_mode_cinema_1") [0x36, 0x39] none,
    mkC ("film_mode") [0x36, 0x39] (some ("X3/X7/X9/X30/X70/X90/RS40/50/60/45/55/65")),
    mkC ("picture_mode_cinema_2") [0x36, 0x38] none,
    mkC ("cinema_mode") [0x36, 0x38] (some ("X3/X7/X9/X30/X70/X90/RS40/50/60/45/55/65")),
    mkC ("picture_mode_cinema_3") [0x36, 0x36] (some ("HD550/750/990/RS15/25/35")),
    mkC ("animation_mode") [0x36, 0x36] (some ("X3/X7/X9/X30/X70/X90/RS40/50/60/45/55/65")),
    mkC ("picture_mode_dynamic") [0x36, 0x42] (some ("HD350/550/750/950/990")),
    mkC ("picture_mode_natural") [0x36, 0x41] none,
    mkC ("picture_mode_stage") [0x36, 0x37] none,
    mkC ("picture_mode_thx") [0x36, 0x46] (some ("HD750/950/990/X7/X9/X70/X90/RS20/25/35/50/60/55/65")),
    mkC ("picture_mode_user_1") [0x36, 0x43] none,
    mkC ("picture_mode_user_2") [0x36, 0x44] none,
    mkC ("picture_mode_user_3") [0x36, 0x45] (some ("HD550/750/950/990/X3/X30/RS20/25/35/40/45")),
    mkC ("picture_mode_user_4") [0x43, 0x41] (some ("X30/X70/X90/RS45/55/65")),
    mkC ("picture_mode_user_5") [0x43, 0x42] (some ("X30/X70/X90/RS45/55/65")),
    mkC ("pixel_shift_horizontal_blue_down") [0x42, 0x45] (some ("X3/X7/X9/X30/X70/X90/RS40/50/60/45/55/65")),
    mkC ("pixel_shift_horizontal_blue_up") [0x42, 0x44] (some ("X3/X7/X9/X30/X70/X90/RS40/50/60/45/55/65")),
    mkC ("pixel_shift_horizontal_green_down") [0x42, 0x43] (some ("X3/X7/X9/X30/X70/X90/RS40/50/60/45/55/65")),
    mkC ("pixel_shift_horizontal_green_up") [0x42, 0x42] (some ("X3/X7/X9/X30/X70/X90/RS40/50/60/45/55/65")),
    mkC ("pixel_shift_horizontal_red_down") [0x42, 0x41] (some ("X3/X7/X9/X30/X70/X90/RS40/50/60/45/55/65")),
    mkC ("pixel_shift_horizontal_red_up") [0x42, 0x39] (some ("X3/X7/X9/X30/X70/X90/RS40/50/60/45/55/65")),
    mkC ("pixel_shift_vertical_blue_down") [0x43, 0x34] (some ("X3/X7/X9/X30/X70/X90/RS40/50/60/45/55/65")),
    mkC ("pixel_shift_vertical_blue_up") [0x43, 0x33] (some ("X3/X7/X9/X30/X70/X90/RS40/50/60/45/55/65")),
    mkC ("pixel_shift_vertical_green_down") [0x43, 0x32] (some ("X3/X7/X9/X30/X70/X90/RS40/50/60/45/55/65")),
    mkC ("pixel_shift_vertical_green_up") [0x43, 0x31] (some ("X3/X7/X9/X30/X70/X90/RS40/50/60/45/55/65")),
    mkC ("pixel_shift_vertical_red_down") [0x43, 0x30] (some ("X3/X7/X9/X30/X70/X90/RS40/50/60/45/55/65")),
    mkC ("pixel_shift_vertical_red_up") [0x42, 0x46] (some ("X3/X7/X9/X30/X70/X90/RS40/50/60/45/55/65")),
    mkC ("power_off") [0x30, 0x36] none,
    mkC ("power_on") [0x30, 0x35] none,
    mkC ("rnr_down") [0x30, 0x43] none,
    mkC ("rnr_up") [0x30, 0x42] none,
    mkC ("screen_adjust_off") [0x38, 0x30] (some ("X3/X30/RS40/45")),
    mkC ("screen_adjust_a") [0x38, 0x31] (some ("X3/X30/RS40/45")),
    mkC ("screen_adjust_b") [0x38, 0x32] (some ("X3/X30/RS40/45")),
    mkC ("screen_adjust_c") [0x38, 0x33] (some ("X3/X30/RS40/45")),
    mkC ("sharpness_down") [0x37, 0x46] none,
    mkC ("sharpness_up") [0x37, 0x45] none,
    mkC ("sharpness_adj") [0x31, 0x34] none,
    mkC ("shutter_close") [0x31, 0x39] (some ("HD550/950/990/X3/X7/X9/X30/X70/X90/RS15/25/35/40/50/60/45/55/65")),
    mkC ("shutter_open") [0x31, 0x41] (some ("HD550/950/990/X3/X7/X9/X30/X70/X90/RS15/25/35/40/50/60/45/55/65")),
    mkC ("shutter_off") [0x32, 0x44] (some ("HD550/950/990/X3/X7/X9/X30/X70/X90/RS15/25/35/40/50/60/45/55/65")),
    mkC ("shutter_on") [0x32, 0x43] (some ("HD550/950/990/X3/X7/X9/X30/X70/X90/RS15/25/35/40/50/60/45/55/65")),
    mkC ("test_pattern_next") [0x35, 0x39] (some ("HD350/550/750/950/990/RS10/15/20/25/35")),
    mkC ("thx_bright") [0x38, 0x35] (some ("X7/X9/X70/X90/RS50/60/55/65")),
    mkC ("thx_dark") [0x38, 0x36] (some ("X7/X9/X70/X90/RS50/60/55/65")),
    mkC ("thx_off") [0x43, 0x37] (some ("X7/X9/X70/X90/RS50/60/55/65")),
    mkC ("thx_on") [0x43, 0x38] (some ("X7/X9/X70/X90/RS50/60/55/65")),
    mkC ("tint_down") [0x39, 0x39] (some ("X3/X7/X9/X30/X70/X90/RS40/50/60/45/55/65")),
    mkC ("tint_up") [0x39, 0x38] (some ("X3/X7/X9/X30/X70/X90/RS40/50/60/45/55/65")),
    mkC ("tint_adj") [0x31, 0x36] none,
    mkC ("tracking_down") [0x41, 0x37] (some ("X7/X9/X70/X90/RS50/60/55/65")),
    mkC ("tracking_up") [0x41, 0x36] (some ("X7/X9/X70/X90/RS50/60/55/65")),
    mkC ("user_next") [0x44, 0x37] (some ("X30/X70/X90/RS45/55/65")),
    mkC ("vertical_position_down") [0x41, 0x44] (some ("X3/X7/X9/X30/X70/X90/RS40/50/60/45/55/65")),
    mkC ("vertical_position_up") [0x41, 0x43] (some ("X3/X7/X9/X30/X70/X90/RS40/50/60/45/55/65"))
  ],
  mkG ("power_status") [0x50, 0x57] (some 1) none [
    mkC ("query") [] none
  ],
  mkG ("input_status") [0x49, 0x50] (some 1) none [
    mkC ("query") [] none
  ],
  mkG ("gamma_table_status") [0x47, 0x54] (some 1) none [
    mkC ("query") [] none
  ],
  mkG ("gamma_value_status") [0x47, 0x50] (some 1) none [
    mkC ("query") [] none
  ],
  mkG ("source_status") [0x53, 0x43] (some 1) none [
    mkC ("query") [] none
  ],
  mkG ("model_status") [0x4d, 0x44] (some 14) none [
    mkC ("query") [] none
  ],
  mkG ("firmware_version_status") [0x49, 0x46] (some 6) none [
    mkC ("query") [0x53, 0x56] none
  ]
]

/-- `CommandGroupMeta.command_code = command_code_and_group_prefix[:2]` (command_meta.py line 531). -/
def CommandGroupDef.command_code (g : CommandGroupDef) : List Nat := g.codeAndPfx.take 2

/-- `CommandGroupMeta.group_prefix = command_code_and_group_prefix[2:]` (command_meta.py line 532). -/
def CommandGroupDef.groupPfx (g : CommandGroupDef) : List Nat := g.codeAndPfx.drop 2

/-- `is_advanced or response_payload_length is None or response_payload_length > 0`
(command_meta.py line 533); the catalog literal never passes `is_advanced=True`. -/
def CommandGroupDef.is_advanced (g : CommandGroupDef) : Bool :=
  g.respLen.isNone || decide (0 < g.respLen.getD 0)

/-- Flattened per-command metadata: the fields `CommandMeta`'s derived
properties need. `effModelsStr` is the command's own `models_str` defaulted to
the group's, as done by the `command_group` setter (command_meta.py lines 644-652). -/
structure CmdMeta where
  groupName : String
  cmdName : String
  isAdvanced : Bool
  code : List Nat
  groupPfx : List Nat
  addlPfx : List Nat
  respLen : Option Nat
  effModelsStr : Option String
deriving DecidableEq, Repr

def CommandGroupDef.metas (g : CommandGroupDef) : List CmdMeta :=
  g.commands.map (fun c =>
    ⟨g.name, c.name, g.is_advanced, g.command_code, g.groupPfx, c.addlPfx, g.respLen,
      match c.modelsStr with
      | some s => some s
      | none => g.modelsStr⟩)

/-- All commands in catalog declaration order — the insertion order used to
build `_command_metas` and `_command_metas_by_bytes` (command_meta.py lines
1318-1353). -/
def all_command_metas : List CmdMeta := group_metas.flatMap CommandGroupDef.metas

/-- `CommandMeta.full_name` (command_meta.py lines 654-657). -/
def CmdMeta.full_name (m : CmdMeta) : String := m.groupName ++ "." ++ m.cmdName

/-- The packet type byte chosen in `CommandGroupMeta.__init__` (command_meta.py line 538). -/
def CmdMeta.typeByte (m : CmdMeta) : Nat := if m.isAdvanced then 0x3f else 0x21

/-- `CommandMeta.packet_prefix`: packet type byte, magic, command code, group
prefix, additional prefix (command_meta.py lines 540-542 and 673-677). -/
def CmdMeta.packetPfx (m : CmdMeta) : List Nat :=
  [m.typeByte] ++ PACKET_MAGIC ++ m.code ++ m.groupPfx ++ m.addlPfx

/-- `CommandMeta.command_prefix` (command_meta.py lines 659-664). -/
def CmdMeta.commandPfx (m : CmdMeta) : List Nat := m.groupPfx ++ m.addlPfx

/-- The key under which a command is registered in `_command_metas_by_bytes`
(command_meta.py line 1348): `packet_prefix + END_OF_PACKET_BYTES`; every
catalog command has a 0-byte payload (asserted at line 1347). -/
def CmdMeta.cmd_bytes (m : CmdMeta) : List Nat := m.packetPfx ++ END_OF_PACKET_BYTES

/-- `bytes_to_command_meta` (command_meta.py lines 1355-1367). The dict maps
each byte string to the declaration-ordered list of commands registered under
it, which is exactly the declaration-ordered filter of `all_command_metas` by
byte-string equality. -/
def bytes_to_command_meta (packet_bytes : List Nat) : List CmdMeta :=
  all_command_metas.filter (fun m => m.cmd_bytes == packet_bytes)

/-- `name_to_command_meta` (command_meta.py lines 1327-1332); full names are
unique (asserted at line 1324), so dict lookup is first-match lookup. -/
def name_to_command_meta (name : String) : Option CmdMeta :=
  all_command_metas.find? (fun m => m.full_name == name)

/-- `AnthemCommand.create_from_meta` with the default empty payload
(command.py lines 177-188): `raw_data = packet_prefix + payload + END_OF_PACKET_BYTES`. -/
def create_from_meta_raw_data (m : CmdMeta) : List Nat :=
  m.packetPfx ++ [] ++ END_OF_PACKET_BYTES

/-- `remote_control.vertical_stretch_off` as registered in the catalog
(command_meta.py lines 918-919). -/
def vertical_stretch_off_meta : CmdMeta :=
  ⟨("remote_control"), ("vertical_stretch_off"), false, [0x52, 0x43], [0x37, 0x33],
    [0x32, 0x34], some 0, some ("HD350/550/750/950/990/RS10/15/20/25/35")⟩

/-- `power.on` as registered in the catalog (command_meta.py line 730). -/
def power_on_meta : CmdMeta :=
  ⟨("power"), ("on"), false, [0x50, 0x57], [], [0x31], some 0, none⟩

/-- C2 counterexample: `remote_control.vertical_stretch_off` is a catalog
command, but resolving the packet bytes produced from it selects the
earlier-declared `remote_control.anamorphic_off` (which shares the same wire
bytes), not `vertical_stretch_off` itself. -/
theorem C2_first_candidate_counterexample :
    vertical_stretch_off_meta ∈ all_command_metas ∧
    ((bytes_to_command_meta (create_from_meta_raw_data vertical_stretch_off_meta)).head?.map
        CmdMeta.full_name = some ("remote_control.anamorphic_off")) ∧
    (bytes_to_command_meta (create_from_meta_raw_data vertical_stretch_off_meta)).head? ≠
      some vertical_stretch_off_meta := by
  refine ⟨by decide, by decide, by decide⟩

/-- C2 (amended): for every catalog command `m`, encoding `m` (packet prefix,
empty payload, terminator) and resolving the bytes yields a candidate list
containing `m`; the selected (first) candidate has exactly the same raw packet
bytes, so the packet rebuilt from the resolved metadata equals the original
bytes. (When several commands share wire bytes the selected candidate may be an
earlier-declared command rather than `m` itself.) -/
theorem C2_encode_resolve_roundtrip (m : CmdMeta) (h : m ∈ all_command_metas) :
    m ∈ bytes_to_command_meta (create_from_meta_raw_data m) ∧
    ∃ m0, (bytes_to_command_meta (create_from_meta_raw_data m)).head? = some m0 ∧
      create_from_meta_raw_data m0 = create_from_meta_raw_data m := by
  have hmem : m ∈ bytes_to_command_meta (create_from_meta_raw_data m) := by
    unfold bytes_to_command_meta
    refine List.mem_filter.mpr ⟨h, ?_⟩
    simp [create_from_meta_raw_data, CmdMeta.cmd_bytes]
  refine ⟨hmem, ?_⟩
  obtain ⟨m0, l, hl⟩ : ∃ m0 l, bytes_to_command_meta (create_from_meta_raw_data m) = m0 :: l := by
    cases hq : bytes_to_command_meta (create_from_meta_raw_data m) with
    | nil => rw [hq] at hmem; cases hmem
    | cons a t => exact ⟨a, t, rfl⟩
  have hm0 : m0 ∈ bytes_to_command_meta (create_from_meta_raw_data m) := by
    rw [hl]; exact List.mem_cons_self _ _
  have hb := (List.mem_filter.mp hm0).2
  rw [beq_iff_eq] at hb
  refine ⟨m0, by rw [hl]; rfl, ?_⟩
  simpa [create_from_meta_raw_data, CmdMeta.cmd_bytes] using hb

/-- Closed witness for C2's amended theorem at `power.on`. -/
theorem C2_encode_resolve_roundtrip_witness :
    power_on_meta ∈ bytes_to_command_meta (create_from_meta_raw_data power_on_meta) ∧
    ∃ m0, (bytes_to_command_meta (create_from_meta_raw_data power_on_meta)).head? = some m0 ∧
      create_from_meta_raw_data m0 = create_from_meta_raw_data power_on_meta :=
  C2_encode_resolve_roundtrip power_on_meta (by decide)


/-! ## Handshake — src/anthem_receiver/protocol/handshake.py,
src/anthem_receiver/client/tcp_client_transport.py (connect, lines 368-397),
src/anthem_receiver/emulator/session.py (data_received, lines 123-156). -/

/-- ASCII byte string helper (models a Python `bytes` literal of ASCII text). -/
def strBytes (s : String) : List Nat := s.data.map Char.toNat

/-- `PJ_OK` (handshake.py line 14). -/
def PJ_OK : List Nat := strBytes ("PJ_OK")

/-- `PJREQ` (handshake.py line 17). -/
def PJREQ : List Nat := strBytes ("PJREQ")

/-- `PJACK` (handshake.py line 22). -/
def PJACK : List Nat := strBytes ("PJACK")

/-- `PJNAK` (handshake.py line 25). -/
def PJNAK : List Nat := strBytes ("PJNAK")

/-- The authentication blob the client writes after the greeting
(tcp_client_transport.py lines 378-384): `PJREQ`, plus `b'_' + password` when a
non-`None`, non-empty password is configured. The password is modelled as its
UTF-8 byte encoding. -/
def client_auth_req (password : Option (List Nat)) : List Nat :=
  match password with
  | none => PJREQ
  | some pw => if 0 < pw.length then PJREQ ++ [0x5f] ++ pw else PJREQ

/-- The blob the emulator session considers valid authentication data
(session.py lines 130-133), formed from its own configured password. -/
def session_valid_auth_data (password : Option (List Nat)) : List Nat :=
  match password with
  | none => PJREQ
  | some pw => if 0 < pw.length then PJREQ ++ [0x5f] ++ pw else PJREQ

/-- `bytes.find(END_OF_PACKET_BYTES)` on the session receive buffer
(session.py line 128): index of the first `0x0a`, `none` for Python's `-1`. -/
def bytes_find_eop : List Nat → Option Nat
  | [] => none
  | b :: rest =>
    if b = END_OF_PACKET then some 0 else (bytes_find_eop rest).map (· + 1)

/-- The guard `len(self.partial_data) >= nb_auth or (0 <= i_eop < nb_auth)`
(session.py line 135): enough bytes have arrived to decide authentication. -/
def session_auth_enough (buffered : List Nat) (password : Option (List Nat)) : Bool :=
  let nb := (session_valid_auth_data password).length
  (decide (nb ≤ buffered.length)) ||
    (match bytes_find_eop buffered with
     | some i => decide (i < nb)
     | none => false)

/-- The bytes the session takes as authentication data (session.py lines
139-142): up to an early packet terminator, else the first `nb_auth` bytes. -/
def session_auth_extracted (buffered : List Nat) (password : Option (List Nat)) : List Nat :=
  let nb := (session_valid_auth_data password).length
  match bytes_find_eop buffered with
  | some i => if i < nb then buffered.take (i + 1) else buffered.take nb
  | none => buffered.take nb

/-- Result of one `data_received` call in state `READING_AUTHENTICATION`. -/
inductive AuthStep where
  | pending (buffered : List Nat)
  | ack (remaining : List Nat)
  | nakClose
deriving DecidableEq, Repr

/-- The authentication branch of `data_received` (session.py lines 129-156):
on success the session writes `PJACK` and moves to `READING_COMMAND` keeping
the remaining buffered bytes; on mismatch it writes `PJNAK` and closes; with
too little data it keeps waiting. -/
def session_auth_step (buffered : List Nat) (password : Option (List Nat)) : AuthStep :=
  if session_auth_enough buffered password then
    let authData := session_auth_extracted buffered password
    if authData = session_valid_auth_data password then .ack (buffered.drop authData.length)
    else .nakClose
  else .pending buffered

/-- The five-byte reply the session eventually sends for a given buffered
input: `PJACK` on success, `PJNAK` on mismatch, and `PJNAK` when the data never
suffices and the authentication timer fires (`_on_auth_read_timeout`,
session.py lines 107-114). -/
def session_auth_wire_reply (buffered : List Nat) (password : Option (List Nat)) : List Nat :=
  match session_auth_step buffered password with
  | .ack _ => PJACK
  | .nakClose => PJNAK
  | .pending _ => PJNAK

/-- Client-side classification of the receiver's handshake reply. -/
inductive ClientHandshakeResult where
  | ok
  | authFailed
  | protocolError
deriving DecidableEq, Repr

/-- The client's handling of the 5-byte ack read after writing its request
(tcp_client_transport.py lines 385-391): `PJNAK` is an authentication failure,
anything else that is not `PJACK` is a protocol error; both raise and are fatal
to the transport. -/
def client_check_ack (reply : List Nat) : ClientHandshakeResult :=
  if reply = PJNAK then .authFailed
  else if reply ≠ PJACK then .protocolError
  else .ok

theorem bytes_find_eop_append_of_not_mem (a b : List Nat) (h : END_OF_PACKET ∉ a) :
    bytes_find_eop (a ++ b) = (bytes_find_eop b).map (· + a.length) := by
  induction a with
  | nil =>
    simp only [List.nil_append, List.length_nil]
    cases bytes_find_eop b <;> simp
  | cons x xs ih =>
    simp only [List.mem_cons, not_or] at h
    have hx : ¬ x = END_OF_PACKET := fun hh => h.1 hh.symm
    rw [List.cons_append, bytes_find_eop, if_neg hx, ih h.2]
    cases bytes_find_eop b <;> simp <;> omega

theorem bytes_find_eop_mem_take (l : List Nat) (i : Nat) (h : bytes_find_eop l = some i) :
    END_OF_PACKET ∈ l.take (i + 1) := by
  induction l generalizing i with
  | nil => simp [bytes_find_eop] at h
  | cons x xs ih =>
    by_cases hx : x = END_OF_PACKET
    · subst hx; simp
    · rw [bytes_find_eop, if_neg hx] at h
      cases hfx : bytes_find_eop xs with
      | none => rw [hfx] at h; simp at h
      | some j =>
        rw [hfx] at h
        simp only [Option.map_some', Option.some.injEq] at h
        have hij : i = j + 1 := by omega
        subst hij
        simpa [List.take_succ_cons] using Or.inr (ih j hfx)

theorem session_auth_extracted_eq (received : List Nat) (p : Option (List Nat)) :
    session_auth_extracted received p =
      match bytes_find_eop received with
      | some i => if i < (session_valid_auth_data p).length then received.take (i + 1)
                  else received.take (session_valid_auth_data p).length
      | none => received.take (session_valid_auth_data p).length := rfl

theorem session_auth_extracted_take (received : List Nat) (p : Option (List Nat))
    (hnl : END_OF_PACKET ∉ session_valid_auth_data p)
    (hv : session_auth_extracted received p = session_valid_auth_data p) :
    (session_valid_auth_data p).length ≤ received.length ∧
      received.take (session_valid_auth_data p).length = session_valid_auth_data p := by
  have hlen : ∀ n : Nat, received.take n = session_valid_auth_data p →
      (session_valid_auth_data p).length ≤ received.length ∧ n ≥ (session_valid_auth_data p).length := by
    intro n hn
    have := congrArg List.length hn
    simp only [List.length_take] at this
    omega
  rw [session_auth_extracted_eq] at hv
  cases hfe : bytes_find_eop received with
  | none =>
    rw [hfe] at hv
    simp only at hv
    exact ⟨(hlen _ hv).1, hv⟩
  | some i =>
    rw [hfe] at hv
    simp only at hv
    by_cases hi : i < (session_valid_auth_data p).length
    · rw [if_pos hi] at hv
      exact absurd (hv ▸ bytes_find_eop_mem_take received i hfe) hnl
    · rw [if_neg hi] at hv
      exact ⟨(hlen _ hv).1, hv⟩

theorem session_auth_ack_iff (p : Option (List Nat)) (received rest : List Nat)
    (hnl : END_OF_PACKET ∉ session_valid_auth_data p) :
    session_auth_step received p = .ack rest ↔
      received = session_valid_auth_data p ++ rest := by
  constructor
  · intro h
    unfold session_auth_step at h
    by_cases he : session_auth_enough received p
    · rw [if_pos he] at h
      by_cases hv : session_auth_extracted received p = session_valid_auth_data p
      · rw [if_pos hv] at h
        simp only [AuthStep.ack.injEq] at h
        obtain ⟨hle, htake⟩ := session_auth_extracted_take received p hnl hv
        have hsplit : received =
            session_valid_auth_data p ++ received.drop (session_valid_auth_data p).length := by
          conv_lhs => rw [← List.take_append_drop (session_valid_auth_data p).length received]
          rw [htake]
        rw [hsplit]
        congr 1
        rw [← h, hv]
      · rw [if_neg hv] at h
        cases h
    · rw [if_neg he] at h
      cases h
  · intro h
    subst h
    have hfind := bytes_find_eop_append_of_not_mem (session_valid_auth_data p) rest hnl
    have henough : session_auth_enough (session_valid_auth_data p ++ rest) p = true := by
      unfold session_auth_enough
      simp [List.length_append]
    have hext : session_auth_extracted (session_valid_auth_data p ++ rest) p =
        session_valid_auth_data p := by
      rw [session_auth_extracted_eq, hfind]
      cases hfr : bytes_find_eop rest with
      | none => simpa using List.take_left _ _
      | some j =>
        simp only [Option.map_some']
        rw [if_neg (by omega)]
        simpa using List.take_left _ _
    unfold session_auth_step
    rw [if_pos henough, hext, if_pos rfl]
    congr 1
    simpa using List.drop_left _ _

/-- C3 counterexample: with client password `"secretX"` and emulator password
`"secret"`, the client's auth blob `PJREQ_secretX` is not equal to the
emulator's valid blob `PJREQ_secret`, yet the session accepts (replies `PJACK`)
because it compares only the first `len(blob)` received bytes; the stray
`0x58` (`X`) is left in the command buffer. -/
theorem C3_password_prefix_counterexample :
    session_auth_step (client_auth_req (some (strBytes ("secretX"))))
        (some (strBytes ("secret"))) = .ack [0x58] ∧
    client_auth_req (some (strBytes ("secretX"))) ≠
      session_valid_auth_data (some (strBytes ("secret"))) := by
  refine ⟨by decide, by decide⟩

/-- C3 (amended): the client writes exactly `PJREQ` with no/empty password and
`PJREQ ++ '_' ++ password` otherwise, which is byte-for-byte the blob the
emulator forms from its own password; provided the blob contains no `0x0a`,
the session replies `PJACK` and proceeds to command reading exactly when the
received bytes *begin with* that blob (the bytes it takes as authentication
data equal the blob); otherwise it replies `PJNAK` and closes — immediately
when enough data has arrived, or via the authentication timeout when it never
does. On the client side `PJNAK` is an authentication failure and any other
reply that is not `PJACK` is a protocol error. -/
theorem C3_handshake_behavior (p : Option (List Nat)) (pw received rest reply : List Nat)
    (hnl : END_OF_PACKET ∉ session_valid_auth_data p) :
    client_auth_req p = session_valid_auth_data p ∧
    client_auth_req none = PJREQ ∧
    client_auth_req (some []) = PJREQ ∧
    (0 < pw.length → client_auth_req (some pw) = PJREQ ++ [0x5f] ++ pw) ∧
    (session_auth_step received p = .ack rest ↔
      received = session_valid_auth_data p ++ rest) ∧
    (session_auth_enough received p = true →
      session_auth_extracted received p ≠ session_valid_auth_data p →
      session_auth_step received p = .nakClose) ∧
    (session_auth_step received p = .pending received ↔
      session_auth_enough received p = false) ∧
    (session_auth_enough received p = false → session_auth_wire_reply received p = PJNAK) ∧
    (client_check_ack reply = .authFailed ↔ reply = PJNAK) ∧
    (client_check_ack reply = .ok ↔ reply = PJACK) ∧
    (reply ≠ PJNAK → reply ≠ PJACK → client_check_ack reply = .protocolError) := by
  refine ⟨?_, rfl, by decide, ?_, session_auth_ack_iff p received rest hnl, ?_, ?_, ?_, ?_, ?_, ?_⟩
  · cases p with
    | none => rfl
    | some q => rfl
  · intro h
    simp [client_auth_req, if_pos h]
  · intro he hv
    unfold session_auth_step
    rw [if_pos he, if_neg hv]
  · constructor
    · intro h
      by_contra he
      rw [Bool.not_eq_false] at he
      unfold session_auth_step at h
      rw [if_pos he] at h
      by_cases hv : session_auth_extracted received p = session_valid_auth_data p <;>
        simp [hv] at h
    · intro h
      unfold session_auth_step
      rw [if_neg (by simp [h])]
  · intro h
    unfold session_auth_wire_reply session_auth_step
    rw [if_neg (by simp [h])]
  · unfold client_check_ack
    split_ifs with h1 h2 <;> simp_all
  · unfold client_check_ack
    split_ifs with h1 h2 <;> simp_all [PJACK, PJNAK, strBytes]
  · intro h1 h2
    unfold client_check_ack
    rw [if_neg h1, if_pos h2]

/-- Closed witness for C3's amended theorem: password `"secret"` on both
sides — the client sends `PJREQ_secret` and the session accepts it with
nothing left over; the client treats `PJNAK` as auth failure and `PJACK` as
success. -/
theorem C3_handshake_behavior_witness :
    client_auth_req (some (strBytes ("secret"))) =
      session_valid_auth_data (some (strBytes ("secret"))) ∧
    (session_auth_step (client_auth_req (some (strBytes ("secret"))))
        (some (strBytes ("secret"))) = .ack [] ↔
      client_auth_req (some (strBytes ("secret"))) =
        session_valid_auth_data (some (strBytes ("secret"))) ++ []) ∧
    (client_check_ack PJNAK = .authFailed ↔ PJNAK = PJNAK) := by
  have h := C3_handshake_behavior (some (strBytes ("secret"))) (strBytes ("secret"))
    (client_auth_req (some (strBytes ("secret")))) [] PJNAK (by decide)
  exact ⟨h.1, h.2.2.2.2.1, h.2.2.2.2.2.2.2.2.1⟩


/-! ## Connect retry loop — src/anthem_receiver/client/tcp_client_transport.py,
`connect` (lines 333-397). Monotonic times are modelled as naturals;
`tLoop` is `time.monotonic()` sampled at the top of the loop iteration (when
`next_retry_time` is computed, line 345) and `tObs` is the sample taken when
the attempt's outcome is observed (lines 358, 361). -/

/-- Outcome of one `asyncio.open_connection` attempt. -/
inductive ConnectAttemptOutcome where
  | success
  | refused
  | timedOut
  | otherError
deriving DecidableEq, Repr

/-- What the loop body does with each outcome. `fatalError` stands for an
exception propagating out of the loop: the surrounding handlers run
`shutdown(e)` / `aclose(e)` and re-raise (lines 392-397). -/
inductive ConnectStepDecision where
  | connected
  | fatalError
  | retryAfterSleep (sleepSecs : Nat)
  | retryImmediately
deriving DecidableEq, Repr

/-- One iteration of the `while True` connect loop (lines 344-367):
success breaks; `ConnectionRefusedError` re-raises at/after the deadline and
otherwise sleeps until `next_retry_time = min(connect_end_time, tLoop +
connect_retry_interval_secs)` and retries; `asyncio.TimeoutError` is caught,
logged, and the loop continues immediately; any other exception propagates. -/
def connect_step (tLoop tObs endTime interval : Nat) :
    ConnectAttemptOutcome → ConnectStepDecision
  | .success => .connected
  | .refused =>
    if endTime ≤ tObs then .fatalError
    else .retryAfterSleep (min endTime (tLoop + interval) - tObs)
  | .timedOut => .retryImmediately
  | .otherError => .fatalError

/-- The connect loop run with `fuel` iterations over a stream of attempt
outcomes (attempt `k` observed at times `tl k` / `tb k`); `none` means the
loop is still running after `fuel` iterations. -/
def connect_run (outcomes : Nat → ConnectAttemptOutcome) (tl tb : Nat → Nat)
    (endTime interval : Nat) : Nat → Nat → Option ConnectStepDecision
  | _, 0 => none
  | k, fuel + 1 =>
    match connect_step (tl k) (tb k) endTime interval (outcomes k) with
    | .retryAfterSleep _ => connect_run outcomes tl tb endTime interval (k + 1) fuel
    | .retryImmediately => connect_run outcomes tl tb endTime interval (k + 1) fuel
    | d => some d

/-- C4: a `ConnectionRefusedError` before the deadline retries after sleeping
until `min(deadline, tLoop + retry_interval)`; refusal at/after the deadline
and any other error are fatal (the exception propagates and the transport is
shut down). However, expiry of the deadline itself — an attempt that raises
`asyncio.TimeoutError` — is *not* fatal: the loop swallows it and retries
immediately, and a stream of timeouts makes `connect()` loop forever. -/
theorem C4_connect_retry_policy (tLoop tObs endTime interval : Nat) :
    (connect_step tLoop tObs endTime interval .success = .connected) ∧
    (tObs < endTime → connect_step tLoop tObs endTime interval .refused =
      .retryAfterSleep (min endTime (tLoop + interval) - tObs)) ∧
    (endTime ≤ tObs → connect_step tLoop tObs endTime interval .refused = .fatalError) ∧
    (connect_step tLoop tObs endTime interval .otherError = .fatalError) ∧
    (connect_step tLoop tObs endTime interval .timedOut = .retryImmediately) ∧
    (connect_step tLoop tObs endTime interval .timedOut ≠ .fatalError) ∧
    (∀ (tl tb : Nat → Nat) (k fuel : Nat),
      connect_run (fun _ => .timedOut) tl tb endTime interval k fuel = none) := by
  refine ⟨rfl, ?_, ?_, rfl, rfl, by simp [connect_step], ?_⟩
  · intro h
    simp [connect_step, Nat.not_le.mpr h]
  · intro h
    simp [connect_step, h]
  · intro tl tb k fuel
    induction fuel generalizing k with
    | zero => rfl
    | succ n ih => simpa [connect_run, connect_step] using ih (k + 1)

/-- Closed witness for C4's theorem at concrete times (deadline 10, retry
interval 3, attempt started at 2 and observed at 4 / at 12). -/
theorem C4_connect_retry_policy_witness :
    (connect_step 2 4 10 3 .refused = .retryAfterSleep 1) ∧
    (connect_step 2 12 10 3 .refused = .fatalError) ∧
    (connect_step 2 12 10 3 .timedOut = .retryImmediately) ∧
    connect_run (fun _ => .timedOut) (fun _ => 12) (fun _ => 12) 10 3 0 5 = none := by
  have h4 := C4_connect_retry_policy 2 4 10 3
  have h12 := C4_connect_retry_policy 2 12 10 3
  exact ⟨h4.2.1 (by decide), h12.2.2.1 (by decide), h12.2.2.2.2.1,
    h12.2.2.2.2.2.2 (fun _ => 12) (fun _ => 12) 0 5⟩


/-! ## Response payload maps and models — command_meta.py lines 34-100, 342-474. -/

/-- `_power_status_map` (command_meta.py lines 342-348). -/
def power_status_map : List (List Nat × String) := [
  ([0x30], ("Standby")), ([0x31], ("On")), ([0x32], ("Cooling")),
  ([0x33], ("Warming")), ([0x34], ("Emergency"))]

/-- `_input_status_map` (command_meta.py lines 354-361). -/
def input_status_map : List (List Nat × String) := [
  ([0x30], ("S-Video")), ([0x31], ("Video")), ([0x32], ("Component")),
  ([0x33], ("PC")), ([0x36], ("HDMI 1")), ([0x37], ("HDMI 2"))]

/-- `_gamma_table_status_map` (command_meta.py lines 366-374). -/
def gamma_table_status_map : List (List Nat × String) := [
  ([0x30], ("Normal")), ([0x31], ("A")), ([0x32], ("B")), ([0x33], ("C")),
  ([0x34], ("Custom 1")), ([0x35], ("Custom 2")), ([0x36], ("Custom 3"))]

/-- `_gamma_value_status_map` (command_meta.py lines 379-389). -/
def gamma_value_status_map : List (List Nat × String) := [
  ([0x30], ("1.8")), ([0x31], ("1.9")), ([0x32], ("2.0")), ([0x33], ("2.1")),
  ([0x34], ("2.2")), ([0x35], ("2.3")), ([0x36], ("2.4")), ([0x37], ("2.5")),
  ([0x38], ("2.6"))]

/-- `_source_status_map` (command_meta.py lines 394-398). -/
def source_status_map : List (List Nat × String) := [
  ([0x00], ("Anthem Logo")), ([0x30], ("No Signal")), ([0x31], ("Signal OK"))]

/-- `_model_status_list_name_map` (command_meta.py lines 403-423): the
`model_status.query` response payloads and the model names they correspond to,
in declaration order. -/
def model_status_list_name_map : List (List Nat × List String) := [
  (strBytes ("ILAFPJ -- B5A1"), [("DLA-NZ9"), ("DLA-NX9"), ("DLA-RS4100")]),
  (strBytes ("ILAFPJ -- B5A2"), [("DLA-NZ8"), ("DLA-RS3100"), ("DLA-NX7")]),
  (strBytes ("ILAFPJ -- B5A3"), [("DLA-NZ7"), ("DLA-NX5"), ("DLA-RS2100"), ("DLA-NP5")]),
  (strBytes ("ILAFPJ -- -XH4"), [("DLA-HD350")]),
  (strBytes ("ILAFPJ -- -XH7"), [("DLA-RS10")]),
  (strBytes ("ILAFPJ -- -XH5"), [("DLA-HD750"), ("DLA-RS20")]),
  (strBytes ("ILAFPJ -- -XH8"), [("DLA-HD550")]),
  (strBytes ("ILAFPJ -- -XHA"), [("DLA-RS15")]),
  (strBytes ("ILAFPJ -- -XH9"), [("DLA-HD990"), ("DLA-HD950"), ("DLA-RS35"), ("DLA-RS25")]),
  (strBytes ("ILAFPJ -- -XHB"), [("DLA-X3"), ("DLA-RS40")]),
  (strBytes ("ILAFPJ -- -XHC"), [("DLA-X9"), ("DLA-X7"), ("DLA-RS60"), ("DLA-RS50")]),
  (strBytes ("ILAFPJ -- -XHE"), [("DLA-X30"), ("DLA-RS45")]),
  (strBytes ("ILAFPJ -- -XHF"), [("DLA-X90R"), ("DLA-X70R"), ("DLA-RS65"), ("DLA-RS55")])]

/-- `_known_models` (command_meta.py lines 60-81): alias groups of receiver
model names. -/
def known_models : List (List String) := [
  [("DLA-HD550")],
  [("DLA-RS20_HD750"), ("DLA-HD750"), ("DLA-RS20")],
  [("DLA-RS25_HD950"), ("DLA-HD950"), ("DLA-RS25")],
  [("DLA-RS35_HD990"), ("DLA-HD990"), ("DLA-RS35")],
  [("DLA-RS40_X3"), ("DLA-X3"), ("DLA-RS40")],
  [("DLA-RS50_X7"), ("DLA-X7"), ("DLA-RS50")],
  [("DLA-RS60_X9"), ("DLA-X9"), ("DLA-RS60")],
  [("DLA-RS45_X30"), ("DLA-X30"), ("DLA-RS45")],
  [("DLA-RS55_X70"), ("DLA-X70"), ("DLA-X70R"), ("DLA-RS55")],
  [("DLA-RS65_X90"), ("DLA-X90"), ("DLA-X90R"), ("DLA-RS65")],
  [("DLA-RS10"), ("DLA-RS10U")],
  [("DLA-RS15")],
  [("DLA-HD350")],
  [("DLA-RS3000_NX9"), ("DLA-NX9"), ("DLA-RS3000")],
  [("DLA-RS4100_NZ9"), ("DLA-NZ9"), ("DLA-RS4100")],
  [("DLA-RS3100_NZ8"), ("DLA-NZ8"), ("DLA-RS3100")],
  [("DLA-RS2000_NX7"), ("DLA-NX7"), ("DLA-RS2000")],
  [("DLA-RS2100_NZ7"), ("DLA-NZ7"), ("DLA-RS2100")],
  [("DLA-RS1000_NX5"), ("DLA-NX5"), ("DLA-RS1000")],
  [("DLA-RS1100_NP5"), ("DLA-NP5"), ("DLA-N5"), ("DLA-RS1100")]]

/-- The `DLA-` prefix expansion applied when building the `models` dict
(command_meta.py lines 90-95): every `DLA-XXX` alias also registers `XXX`. -/
def str_starts_with (s pre : String) : Bool := pre.data.isPrefixOf s.data

def str_drop (s : String) (n : Nat) : String := String.mk (s.data.drop n)

def expand_model_names (names : List String) : List String :=
  names ++ (names.filter (fun n => str_starts_with n ("DLA-"))).map (fun n => str_drop n 4)

/-- The alias group a model name belongs to (the `models` dict, command_meta.py
lines 87-100). Groups are disjoint (checked at line 98), so first-match lookup
is dict lookup. -/
def model_group_names (name : String) : Option (List String) :=
  (known_models.find? (fun g => (expand_model_names g).contains name)).map expand_model_names

/-- `AnthemModel.model_status_payload` as assigned by
`_fix_model_status_list_map` (command_meta.py lines 435-458): the payload of
the (unique, per the checks at lines 446 and 454-456) map entry naming one of
the model's aliases. -/
def model_status_payload (name : String) : Option (List Nat) :=
  match model_group_names name with
  | none => none
  | some aliases =>
    (model_status_list_name_map.find? (fun e => e.2.any (fun n => aliases.contains n))).map
      Prod.fst

/-- `FixedResponsePayloadMapper.response_payload_to_str` (command_meta.py
lines 209-210): dict lookup on the payload. -/
def response_payload_to_str (map : List (List Nat × String)) (payload : List Nat) :
    Option String :=
  (map.find? (fun e => e.1 == payload)).map Prod.snd

/-- `FixedResponsePayloadMapper.str_to_response_payload` (command_meta.py lines
218-219); the reverse dict is well-defined because duplicate strings are
rejected at construction (lines 196-200). -/
def str_to_response_payload (map : List (List Nat × String)) (s : String) :
    Option (List Nat) :=
  (map.find? (fun e => e.2 == s)).map Prod.fst

/-- The `model_status_map` payload keys (command_meta.py lines 460-474): the
keys of `_model_status_list_name_map` in declaration order. -/
def model_status_map_keys : List (List Nat) := model_status_list_name_map.map Prod.fst

/-- `CommandMeta.response_map.valid_response_payloads()` for catalog commands.
The seven advanced query commands carry explicit mappers (catalog lines
1275-1314): six fixed maps whose payload sets are their key sets, and the
firmware mapper, which has no fixed payload set (lines 265-266). Every other
catalog command defaults to `DefaultResponsePayloadMapper(
response_payload_length)` (lines 629-635), whose payload set is `{b''}` when
the length is 0 and `None` otherwise (lines 228-232). -/
def CmdMeta.valid_response_payloads (m : CmdMeta) : Option (List (List Nat)) :=
  if m.full_name = ("power_status.query") then some (power_status_map.map Prod.fst)
  else if m.full_name = ("input_status.query") then some (input_status_map.map Prod.fst)
  else if m.full_name = ("gamma_table_status.query") then some (gamma_table_status_map.map Prod.fst)
  else if m.full_name = ("gamma_value_status.query") then some (gamma_value_status_map.map Prod.fst)
  else if m.full_name = ("source_status.query") then some (source_status_map.map Prod.fst)
  else if m.full_name = ("model_status.query") then some model_status_map_keys
  else if m.full_name = ("firmware_version_status.query") then none
  else if m.respLen = some 0 then some [[]]
  else none

/-- Python `bytes` lexicographic strict order. -/
def bytesLt : List Nat → List Nat → Bool
  | [], [] => false
  | [], _ :: _ => true
  | _ :: _, [] => false
  | a :: as, b :: bs => if a < b then true else if b < a then false else bytesLt as bs

/-- `sorted(payload_set)[0]` (emulator_impl.py lines 325-326): the least
payload in the set under the lexicographic `bytes` order. -/
def sorted_least (l : List (List Nat)) : Option (List Nat) :=
  l.foldl (fun acc x =>
    match acc with
    | none => some x
    | some a => if bytesLt x a then some x else some a) none

/-! ## Emulator command dispatch — src/anthem_receiver/emulator/emulator_impl.py.

The emulator state relevant to the claims is its `power_status_payload`; a
handler result is a payload, a bool, or None (emulator_impl.py lines 296-302 —
the built-in handlers never return an `AnthemResponse`). Assertions and raised
`AnthemReceiverError`s are modelled as `.error`. -/

inductive HandleResult where
  | payloadRes (p : List Nat)
  | boolRes (b : Bool)
  | noneRes
deriving DecidableEq, Repr

/-- `_handle_power_on` (emulator_impl.py lines 249-268), with
`get_power_status_str`'s assert (lines 179-183) and `set_power_status_str`'s
reverse lookup and unknown-string error (lines 185-197). -/
def handle_power_on (st : List Nat) : Except String (List Nat × HandleResult) :=
  match response_payload_to_str power_status_map st with
  | none => .error ("assert: unmappable power status payload")
  | some s =>
    if s = ("Standby") then
      match str_to_response_payload power_status_map ("Warming") with
      | none => .error ("Unknown power status string")
      | some p2 => .ok (p2, .boolRes true)
    else .ok (st, .boolRes false)

/-- `_handle_power_off` (emulator_impl.py lines 270-289). -/
def handle_power_off (st : List Nat) : Except String (List Nat × HandleResult) :=
  match response_payload_to_str power_status_map st with
  | none => .error ("assert: unmappable power status payload")
  | some s =>
    if s = ("On") then
      match str_to_response_payload power_status_map ("Cooling") with
      | none => .error ("Unknown power status string")
      | some p2 => .ok (p2, .boolRes true)
    else .ok (st, .boolRes false)

/-- `handle_command` (emulator_impl.py lines 291-327), translated statement by
statement. Note the source's control flow: the `model_status.query` test is a
bare `if` (line 306), and a *new* `if/elif/else` chain starts with the
`power_status.query` test (line 309) — so after `result` is assigned for
`model_status.query`, the second chain still runs and its final `else` branch
overwrites `result` (model_status.query is an advanced command, so the
sorted-least-payload branch runs). The `power_status.query` branch's debug log
calls `get_power_status_str`, whose assert we model as an error on unmappable
payloads. `command.is_advanced` equals the resolved meta's `is_advanced` here
because a resolved packet's bytes equal the meta's registered bytes. -/
def handle_command (modelName : String) (st : List Nat) (m : CmdMeta) :
    Except String (List Nat × HandleResult) :=
  let result0 : HandleResult := .noneRes
  let result1 : HandleResult :=
    if m.full_name = ("model_status.query") then
      .payloadRes ((model_status_payload modelName).getD [])
    else result0
  if m.full_name = ("power_status.query") then
    match response_payload_to_str power_status_map st with
    | none => .error ("assert: unmappable power status payload")
    | some _ => .ok (st, .payloadRes st)
  else if m.full_name = ("power.on") then handle_power_on st
  else if m.full_name = ("power.off") then handle_power_off st
  else if m.isAdvanced = false then
    let _ := result1
    .ok (st, .noneRes)
  else
    match m.valid_response_payloads with
    | none => .error ("No valid response payloads for advanced command")
    | some ps =>
      match sorted_least ps with
      | none => .error ("No valid response payloads for advanced command")
      | some least => .ok (st, .payloadRes least)

/-- `AnthemCommand.create_basic_response_packet` (command.py lines 200-209). -/
def create_basic_response_packet (code : List Nat) : List Nat :=
  [0x06] ++ PACKET_MAGIC ++ code ++ END_OF_PACKET_BYTES

/-- `AnthemCommand.create_advanced_response_packet` (command.py lines 211-229);
`isAdvCmd` is `self.is_advanced` (the command packet's type), `code` the
command packet's command code. -/
def create_advanced_response_packet (m : CmdMeta) (isAdvCmd : Bool)
    (code payload : List Nat) : Except String (List Nat) :=
  if isAdvCmd = false then
    .error ("Cannot create advanced response packet for basic command")
  else
    match m.respLen with
    | some n =>
      if payload.length ≠ n then .error ("Invalid response payload length")
      else .ok ([0x40] ++ PACKET_MAGIC ++ code ++ payload ++ END_OF_PACKET_BYTES)
    | none => .ok ([0x40] ++ PACKET_MAGIC ++ code ++ payload ++ END_OF_PACKET_BYTES)

/-- Leading non-digit prefix of a model name (`_model_name_prefix_re`,
command_meta.py line 554). -/
def leading_nondigits (s : String) : String :=
  String.mk (s.data.takeWhile (fun c => ¬ c.isDigit))

def starts_with_digit (s : String) : Bool :=
  match s.data with
  | c :: _ => c.isDigit
  | [] => false

/-- `CommandGroupMeta.parse_models_str` (command_meta.py lines 555-572), with
models represented by the index of their alias group in `known_models`.
Returns `none` where the source would raise. -/
def parse_models_go : List String → Option String → List Nat → Option (List Nat)
  | [], _, acc => some acc.reverse
  | item :: rest, prevPfx, acc =>
    let fullName :=
      match prevPfx with
      | some pfxStr => if starts_with_digit item then pfxStr ++ item else item
      | none => item
    match known_models.findIdx? (fun g => (expand_model_names g).contains fullName) with
    | none => none
    | some gi =>
      let pfxStr := leading_nondigits fullName
      if pfxStr.data.isEmpty then none
      else parse_models_go rest (some pfxStr) (gi :: acc)

def parse_models_str (s : String) : Option (List Nat) :=
  parse_models_go (s.splitOn ("/")) none []

/-- `command_meta.models is None or model in command_meta.models`
(command.py line 162). -/
def cmd_meta_matches_model (m : CmdMeta) (modelName : String) : Bool :=
  match m.effModelsStr with
  | none => true
  | some s =>
    match parse_models_str s,
        known_models.findIdx? (fun g => (expand_model_names g).contains modelName) with
    | some gis, some gi => gis.contains gi
    | _, _ => false

/-- `AnthemCommand.__init__` validation (command.py lines 31-53): validate the
packet, require a command packet type, require the raw data to start with the
meta's packet prefix, and require the packet payload length to equal the
meta's `packet_payload_length` (= `command_prefix_length + payload_length`,
with `payload_length` 0 for every catalog command). -/
def anthem_command_init_checks (packetBytes : List Nat) (m : CmdMeta) :
    Except String CmdMeta :=
  match Packet.validate packetBytes with
  | .error e => .error e
  | .ok _ =>
    if ¬ (Packet.packet_type packetBytes = PacketType.BASIC_COMMAND ∨
          Packet.packet_type packetBytes = PacketType.ADVANCED_COMMAND) then
      .error ("Invalid command packet type")
    else if ¬ m.packetPfx.isPrefixOf packetBytes then
      .error ("Command packet does not match command meta prefix")
    else if (Packet.packet_payload packetBytes).length ≠ m.commandPfx.length + 0 then
      .error ("Command packet payload length mismatch")
    else .ok m

/-- `AnthemCommand.create_from_command_packet` (command.py lines 145-175) with
a known model (the emulator always passes its configured model, emulator_impl
line 343), composed with the `AnthemCommand.__init__` checks. With several
candidates, metas matching the model are preferred; the first candidate (in
catalog declaration order) is used as the fallback and as the tie-breaker. -/
def create_from_command_packet (packetBytes : List Nat) (modelName : String) :
    Except String CmdMeta :=
  match bytes_to_command_meta packetBytes with
  | [] => .error ("Unrecognized command packet")
  | [m] => anthem_command_init_checks packetBytes m
  | m0 :: _ :: _ =>
    let matching := (bytes_to_command_meta packetBytes).filter
      (fun m => cmd_meta_matches_model m modelName)
    match matching with
    | [] => anthem_command_init_checks packetBytes m0
    | mm :: _ => anthem_command_init_checks packetBytes mm

/-- `handle_request_packet` (emulator_impl.py lines 329-380): validate the
packet, resolve it to a command with the configured model, dispatch
`handle_command`, and build the response packet list — empty when the handler
returned `False`, a basic response for `True`/`None`, and a basic plus an
advanced response for a payload result on an advanced command. Returns the new
power-status payload and the response packets. -/
def handle_request_packet (modelName : String) (st : List Nat)
    (packetBytes : List Nat) : Except String (List Nat × List (List Nat)) :=
  if Packet.is_valid packetBytes = false then .error ("Invalid request packet")
  else if Packet.is_command packetBytes = false then .error ("Invalid command packet type")
  else
    match create_from_command_packet packetBytes modelName with
    | .error e => .error e
    | .ok m =>
      match handle_command modelName st m with
      | .error e => .error e
      | .ok (st2, res) =>
        match res with
        | .boolRes false => .ok (st2, [])
        | .boolRes true =>
          .ok (st2, [create_basic_response_packet (Packet.command_code packetBytes)])
        | .noneRes =>
          .ok (st2, [create_basic_response_packet (Packet.command_code packetBytes)])
        | .payloadRes p =>
          let basic := create_basic_response_packet (Packet.command_code packetBytes)
          if Packet.is_advanced_command packetBytes then
            match create_advanced_response_packet m
                (Packet.is_advanced_command packetBytes)
                (Packet.command_code packetBytes) p with
            | .error e => .error e
            | .ok adv => .ok (st2, [basic, adv])
          else if 0 < p.length then
            .error ("Payload provided for response to basic command")
          else .ok (st2, [basic])

/-- The `power.on` wire packet, as produced by `create_from_meta` for catalog
line 730. -/
def power_on_packet : List Nat := [0x21, 0x89, 0x01, 0x50, 0x57, 0x31, 0x0a]

/-- The `power.off` wire packet (catalog line 734). -/
def power_off_packet : List Nat := [0x21, 0x89, 0x01, 0x50, 0x57, 0x30, 0x0a]

/-- The `power_status.query` wire packet (catalog lines 1275-1279). -/
def power_status_query_packet : List Nat := [0x3f, 0x89, 0x01, 0x50, 0x57, 0x0a]

/-- The `model_status.query` wire packet (catalog lines 1302-1306). -/
def model_status_query_packet : List Nat := [0x3f, 0x89, 0x01, 0x4d, 0x44, 0x0a]

/-- C5: in every simulated power state, a `power.on` command moves
Standby→Warming and is answered with exactly one basic response packet, and in
any other state leaves the state unchanged and produces no response packet at
all; `power.off` behaves symmetrically, moving On→Cooling. -/
theorem C5_power_on_off (modelName : String) (st : List Nat)
    (h : st ∈ power_status_map.map Prod.fst) :
    (handle_request_packet modelName st power_on_packet =
      if st = [0x30] then .ok ([0x33], [[0x06, 0x89, 0x01, 0x50, 0x57, 0x0a]])
      else .ok (st, [])) ∧
    (handle_request_packet modelName st power_off_packet =
      if st = [0x31] then .ok ([0x32], [[0x06, 0x89, 0x01, 0x50, 0x57, 0x0a]])
      else .ok (st, [])) := by
  fin_cases h <;> exact ⟨rfl, rfl⟩

/-- Closed witness for C5 from Standby. -/
theorem C5_power_on_off_witness :
    handle_request_packet ("DLA-NZ8") [0x30] power_on_packet =
      if [0x30] = [0x30] then .ok ([0x33], [[0x06, 0x89, 0x01, 0x50, 0x57, 0x0a]])
      else .ok ([0x30], []) :=
  (C5_power_on_off ("DLA-NZ8") [0x30] (by decide)).1

/-- C6 (code bug): with the emulator's default model `DLA-NZ8`,
`power_status.query` correctly returns the current power payload, but
`model_status.query` does *not* return the configured model's 14-byte
`model_status_payload` `b"ILAFPJ -- B5A2"`. The `model_status.query` branch of
`handle_command` is a bare `if` followed by a new `if/elif/else` chain, so the
chain's final `else` overwrites the result with the lexicographically smallest
valid payload, `b"ILAFPJ -- -XH4"` (the HD350-family code), for every
configured model. -/
theorem C6_model_status_query_divergence (st : List Nat)
    (h : st ∈ power_status_map.map Prod.fst) :
    (handle_request_packet ("DLA-NZ8") st model_status_query_packet =
      .ok (st, [[0x06, 0x89, 0x01, 0x4d, 0x44, 0x0a],
        [0x40, 0x89, 0x01, 0x4d, 0x44] ++ strBytes ("ILAFPJ -- -XH4") ++ [0x0a]])) ∧
    model_status_payload ("DLA-NZ8") = some (strBytes ("ILAFPJ -- B5A2")) ∧
    strBytes ("ILAFPJ -- -XH4") ≠ strBytes ("ILAFPJ -- B5A2") ∧
    (handle_request_packet ("DLA-NZ8") st power_status_query_packet =
      .ok (st, [[0x06, 0x89, 0x01, 0x50, 0x57, 0x0a],
        [0x40, 0x89, 0x01, 0x50, 0x57] ++ st ++ [0x0a]])) := by
  fin_cases h <;> exact ⟨rfl, by decide, by decide, rfl⟩

/-- Closed witness for C6 at the Standby payload. -/
theorem C6_model_status_query_divergence_witness :
    handle_request_packet ("DLA-NZ8") [0x30] model_status_query_packet =
      .ok ([0x30], [[0x06, 0x89, 0x01, 0x4d, 0x44, 0x0a],
        [0x40, 0x89, 0x01, 0x4d, 0x44] ++ strBytes ("ILAFPJ -- -XH4") ++ [0x0a]]) :=
  (C6_model_status_query_divergence [0x30] (by decide)).1


/-! ## Discovery datagram and search — src/anthem_receiver/discovery/dp_datagram.py,
src/anthem_receiver/discovery/client.py. -/

/-- `_HEADER_VALUE = b'PARC\0\0'` (dp_datagram.py line 109). -/
def DP_HEADER_VALUE : List Nat := strBytes ("PARC") ++ [0, 0]

/-- `_TOTAL_LENGTH` (dp_datagram.py lines 107-132): header 6 + announce 1 +
is_off 1 + version 4 + tcp_port 4 + three 16-byte name fields = 64 bytes. -/
def DP_TOTAL_LENGTH : Nat := 6 + 1 + 1 + 4 + 4 + 16 + 16 + 16

/-- `_get_raw_field` (dp_datagram.py lines 209-210). -/
def dp_get_raw_field (raw : List Nat) (offset len : Nat) : List Nat :=
  (raw.drop offset).take len

/-- `_set_raw_field` (dp_datagram.py lines 212-215). -/
def dp_set_raw_field (raw : List Nat) (offset len : Nat) (value : List Nat) : List Nat :=
  raw.take offset ++ value ++ raw.drop (offset + len)

/-- `int.to_bytes(len, 'big')`. -/
def nat_to_bytes_be : Nat → Nat → List Nat
  | 0, _ => []
  | k + 1, n => nat_to_bytes_be k (n / 256) ++ [n % 256]

/-- `AnthemDpDatagram.new_query()` (dp_datagram.py lines 178-185 and the
`is_query` branch of `__init__`, lines 154-164): start from the header padded
with zero bytes, then set announce_request `True`, is_off `False`,
dp_version `_DEFAULT_DP_VERSION = 1`, tcp_port `0`, and all-null name fields,
via the raw field setters. -/
def dp_new_query : List Nat :=
  let raw0 := DP_HEADER_VALUE ++ List.replicate (DP_TOTAL_LENGTH - 6) 0
  let raw1 := dp_set_raw_field raw0 6 1 [0x01]
  let raw2 := dp_set_raw_field raw1 7 1 [0x00]
  let raw3 := dp_set_raw_field raw2 8 4 (nat_to_bytes_be 4 1)
  let raw4 := dp_set_raw_field raw3 12 4 (nat_to_bytes_be 4 0)
  let raw5 := dp_set_raw_field raw4 16 16 (List.replicate 16 0)
  let raw6 := dp_set_raw_field raw5 32 16 (List.replicate 16 0)
  dp_set_raw_field raw6 48 16 (List.replicate 16 0)

/-- `AnthemDpSearchRequest.__aenter__` (client.py lines 115-128): after
subscribing, one fresh query datagram is sent per socket binding. -/
def search_request_sent_datagrams (bindingCount : Nat) : List (List Nat) :=
  List.replicate bindingCount dp_new_query

/-- `AnthemDpDatagram.announce_request` (dp_datagram.py lines 287-290):
the raw announce field differs from `b'\x00'`. -/
def dp_announce_request (raw : List Nat) : Bool :=
  dp_get_raw_field raw 6 1 ≠ [0x00]

/-- Python byte values stripped by `str.rstrip()` with no argument (ASCII
whitespace; the names at stake are ASCII). -/
def is_py_space (b : Nat) : Bool :=
  b = 0x20 || b = 0x09 || b = 0x0a || b = 0x0d || b = 0x0b || b = 0x0c

def py_rstrip (bs : List Nat) (strip : Nat → Bool) : List Nat :=
  (bs.reverse.dropWhile strip).reverse

/-- `AnthemDpDatagram.device_name` (dp_datagram.py lines 332-335) at the byte
level: the 16-byte raw field with trailing NULs then trailing whitespace
stripped (`decode('utf-8').rstrip('\x00').rstrip()`). -/
def dp_device_name_bytes (raw : List Nat) : List Nat :=
  py_rstrip (py_rstrip (dp_get_raw_field raw 16 16) (fun b => b = 0)) is_py_space

/-- The response filter in `AnthemDpSearchRequest.iter_responses` (client.py
line 153): keep a datagram iff it is not an announce-request and its device
name is nonempty. -/
def search_response_kept (raw : List Nat) : Bool :=
  !(dp_announce_request raw) && !(dp_device_name_bytes raw).isEmpty

/-- C7 counterexample: the query datagram actually sent is 64 bytes long (not
60) and its version field is the big-endian encoding of 1 (not zero). -/
theorem C7_query_datagram_counterexample :
    dp_new_query.length = 64 ∧
    dp_get_raw_field dp_new_query 8 4 = [0, 0, 0, 1] ∧
    ¬ dp_new_query.length = 60 ∧
    ¬ dp_get_raw_field dp_new_query 8 4 = [0, 0, 0, 0] := by
  refine ⟨by decide, by decide, by decide, by decide⟩

/-- C7 (amended): every discovery search sends, on each bound socket, the
64-byte query datagram whose announce-request flag is set, whose version field
is 1 (the protocol default), and all of whose other fields (is-off flag, TCP
port, device name, model name, serial number) are zero; and the responses it
yields exclude datagrams that are themselves announce-requests or whose device
name is empty. -/
theorem C7_search_query_and_filter (bindingCount : Nat) (raw : List Nat) :
    search_request_sent_datagrams bindingCount =
      List.replicate bindingCount dp_new_query ∧
    dp_new_query.length = 64 ∧
    dp_announce_request dp_new_query = true ∧
    dp_get_raw_field dp_new_query 7 1 = [0x00] ∧
    dp_get_raw_field dp_new_query 8 4 = nat_to_bytes_be 4 1 ∧
    dp_get_raw_field dp_new_query 12 4 = [0, 0, 0, 0] ∧
    dp_get_raw_field dp_new_query 16 16 = List.replicate 16 0 ∧
    dp_get_raw_field dp_new_query 32 16 = List.replicate 16 0 ∧
    dp_get_raw_field dp_new_query 48 16 = List.replicate 16 0 ∧
    (search_response_kept raw = true ↔
      dp_announce_request raw = false ∧ dp_device_name_bytes raw ≠ []) := by
  refine ⟨rfl, by decide, by decide, by decide, by decide, by decide, by decide,
    by decide, by decide, ?_⟩
  unfold search_response_kept
  cases h : dp_announce_request raw <;>
    simp [List.isEmpty_iff]

/-- Closed witness for C7's amended theorem with two bound sockets and the
query datagram itself as a received datagram (announce-requests are filtered
out, so a search never yields its own query). -/
theorem C7_search_query_and_filter_witness :
    search_request_sent_datagrams 2 = List.replicate 2 dp_new_query ∧
    (search_response_kept dp_new_query = true ↔
      dp_announce_request dp_new_query = false ∧ dp_device_name_bytes dp_new_query ≠ []) :=
  ⟨(C7_search_query_and_filter 2 dp_new_query).1,
    (C7_search_query_and_filter 2 dp_new_query).2.2.2.2.2.2.2.2.2⟩


/-! ## Host resolution via discovery — src/anthem_receiver/client/resolve_host.py
(dp branch, lines 80-129) and the response-info object it consumes
(src/anthem_receiver/discovery/client.py, `AnthemDpResponseInfo`, lines 37-73). -/

/-- `int.from_bytes(bs, 'big')`. -/
def int_from_bytes_be (bs : List Nat) : Nat := bs.foldl (fun acc b => acc * 256 + b) 0

/-- `AnthemDpDatagram.tcp_port` (dp_datagram.py lines 322-325). -/
def dp_tcp_port (raw : List Nat) : Nat := int_from_bytes_be (dp_get_raw_field raw 12 4)

/-- The attribute values an `AnthemDpResponseInfo` instance carries: `__init__`
(client.py lines 57-67) assigns exactly `socket_binding`, `src_addr`,
`datagram`, `monotonic_time` and `utc_time`. -/
structure DpResponseInfoModel where
  socket_binding : Nat
  src_addr : List Nat × Nat
  datagram : List Nat
  monotonic_time : Nat
  utc_time : Nat
deriving DecidableEq, Repr

inductive PyVal where
  | bindingVal (idx : Nat)
  | addrVal (host : List Nat) (port : Nat)
  | datagramVal (raw : List Nat)
  | timeVal (t : Nat)
deriving DecidableEq, Repr

inductive PyErr where
  | attributeError
deriving DecidableEq, Repr

/-- The instance attribute dictionary of an `AnthemDpResponseInfo`, in
assignment order (client.py lines 63-67). -/
def dp_response_info_attrs (info : DpResponseInfoModel) : List (String × PyVal) :=
  [(("socket_binding"), .bindingVal info.socket_binding),
   (("src_addr"), .addrVal info.src_addr.1 info.src_addr.2),
   (("datagram"), .datagramVal info.datagram),
   (("monotonic_time"), .timeVal info.monotonic_time),
   (("utc_time"), .timeVal info.utc_time)]

/-- Python attribute access: look the name up in the object's attribute
dictionary; a missing name raises `AttributeError`. -/
def py_getattr (attrs : List (String × PyVal)) (name : String) : Except PyErr PyVal :=
  match attrs.find? (fun e => e.1 == name) with
  | some e => .ok e.2
  | none => .error .attributeError

/-- The tail of the `dp://` branch of `resolve_receiver_tcp_host`
(resolve_host.py lines 115-116), reached whenever the search or the
process-wide cache has produced a matching device `info`:
`result_host = dp_response_info.src_address[0]` followed by
`port = dp_response_info.datagram.tcp_port`. -/
def resolve_dp_extract_host_port (info : DpResponseInfoModel) :
    Except PyErr (List Nat × Nat) :=
  match py_getattr (dp_response_info_attrs info) ("src_address") with
  | .error e => .error e
  | .ok (.addrVal host _) => .ok (host, dp_tcp_port info.datagram)
  | .ok _ => .error .attributeError

/-- C8: for every discovery response info a `dp://` resolution finds, the host
extraction reads the attribute `src_address`, which `AnthemDpResponseInfo`
does not define (it defines `src_addr`), so the extraction raises
`AttributeError` and never returns a resolved (host, port) tuple. -/
theorem C8_resolve_host_attribute_error (info : DpResponseInfoModel) :
    resolve_dp_extract_host_port info = .error .attributeError ∧
    ((dp_response_info_attrs info).map Prod.fst).contains ("src_addr") = true ∧
    ((dp_response_info_attrs info).map Prod.fst).contains ("src_address") = false := by
  exact ⟨rfl, rfl, rfl⟩

/-! ## Emulator session command framing — src/anthem_receiver/emulator/session.py
(`data_received` command branch, lines 157-169) and
src/anthem_receiver/protocol/raw_packet.py (`RawPacket.__init__`, lines 35-43). -/

/-- A `RawPacket` object: `__init__(self, raw_packet_type=RawPacketType.UNKNOWN,
raw_data=b'', allow_sign=True)` simply stores its first two arguments; `α` is
the dynamic type of whatever was passed first (Python performs no check). -/
structure RawPacketModel (α : Type) where
  rawPacketTypeArg : α
  raw_data : List Nat
deriving DecidableEq, Repr

/-- A positional call `RawPacket(x)`: `x` binds to the `raw_packet_type`
parameter and `raw_data` keeps its default `b''` (raw_packet.py line 35). -/
def RawPacket_positional {α : Type} (firstArg : α) : RawPacketModel α :=
  ⟨firstArg, []⟩

/-- The command-framing branch of `data_received` (session.py lines 157-169):
when the buffer contains a `0x0a`, the bytes through it are split off and the
object handed to `emulator.on_packet_received` is `RawPacket(packet_bytes)` —
the received bytes passed positionally. Returns that object and the remaining
buffer; `none` when no complete command is buffered. -/
def session_command_step (buffered : List Nat) :
    Option (RawPacketModel (List Nat) × List Nat) :=
  match bytes_find_eop buffered with
  | some i => some (RawPacket_positional (buffered.take (i + 1)), buffered.drop (i + 1))
  | none => none

/-- C9: every complete 0x0A-terminated command an emulator session receives is
handed to the dispatcher as a `RawPacket` built by passing the received bytes
positionally as the packet-type argument: its `raw_data` field is always
empty, so the field the dispatcher validates (`packet.is_valid` reads
`raw_data`) never holds the command bytes and is never valid; the bytes ended
up in the packet-type argument instead. -/
theorem C9_session_packet_raw_data_empty (buffered rest : List Nat)
    (p : RawPacketModel (List Nat))
    (h : session_command_step buffered = some (p, rest)) :
    p.raw_data = [] ∧
    Packet.is_valid p.raw_data = false ∧
    p.rawPacketTypeArg ++ rest = buffered := by
  unfold session_command_step at h
  cases hf : bytes_find_eop buffered with
  | none => rw [hf] at h; cases h
  | some i =>
    rw [hf] at h
    simp only [Option.some.injEq, Prod.mk.injEq] at h
    obtain ⟨hp, hrest⟩ := h
    subst hp
    subst hrest
    exact ⟨rfl, (by decide : Packet.is_valid ([] : List Nat) = false),
      List.take_append_drop _ _⟩

/-- Closed witness for C9 at the `power.on` wire packet arriving in one chunk. -/
theorem C9_session_packet_raw_data_empty_witness :
    (RawPacket_positional power_on_packet).raw_data = [] ∧
    Packet.is_valid (RawPacket_positional power_on_packet).raw_data = false ∧
    (RawPacket_positional power_on_packet).rawPacketTypeArg ++ [] = power_on_packet := by
  have h := C9_session_packet_raw_data_empty power_on_packet []
    (RawPacket_positional power_on_packet) (by decide)
  simpa using h

/-! ## Shared discovery subscriber set — src/anthem_receiver/discovery/dp_socket.py.

`AnthemDpSocket.datagram_subscribers` is declared as a *class* attribute with
value `set()` (dp_socket.py line 335); `__init__` (lines 338-340) assigns only
`final_result` and `socket_bindings` on the instance and never rebinds
`datagram_subscribers`. `add_subscriber` / `remove_subscriber` (lines 342-346)
mutate `self.datagram_subscribers` in place, and `datagram_received` (lines
423-436) iterates a snapshot of it. We model Python attribute resolution
explicitly: each instance records the attribute names assigned on it, and
reading `self.datagram_subscribers` falls back to the single class-level set
object exactly when the name is not among the instance's own attributes. -/

/-- One `AnthemDpSocket` instance: the attribute names assigned on it, and the
per-instance subscriber set that would be reached if `datagram_subscribers`
were ever assigned on the instance. -/
structure DpSocketInstance where
  ownAttrNames : List String
  ownSubscribers : List Nat
deriving DecidableEq, Repr

/-- Process-wide state: the single class-level subscriber set and the live
instances. Subscribers are identified by numerals. -/
structure DpWorld where
  classSubscribers : List Nat
  instances : List DpSocketInstance
deriving DecidableEq, Repr

def dp_empty_world : DpWorld := ⟨[], []⟩

/-- `AnthemDpSocket.__init__` (dp_socket.py lines 338-340): the new instance's
own attributes are exactly `final_result` and `socket_bindings`. -/
def dp_socket_new (w : DpWorld) : DpWorld :=
  ⟨w.classSubscribers, w.instances ++ [⟨[("final_result"), ("socket_bindings")], []⟩]⟩

/-- Whether `self.datagram_subscribers` on instance `i` resolves to the class
attribute: it does unless the instance's own dictionary binds the name. -/
def dp_resolves_to_class (w : DpWorld) (i : Nat) : Bool :=
  match w.instances.get? i with
  | some inst => !(inst.ownAttrNames.contains ("datagram_subscribers"))
  | none => true

def dp_modify_inst : List DpSocketInstance → Nat →
    (DpSocketInstance → DpSocketInstance) → List DpSocketInstance
  | [], _, _ => []
  | x :: xs, 0, f => f x :: xs
  | x :: xs, n + 1, f => x :: dp_modify_inst xs n f

/-- `add_subscriber` called through instance `i` (dp_socket.py lines 342-343):
`self.datagram_subscribers.add(subscriber)` mutates the resolved set object. -/
def dp_add_subscriber (w : DpWorld) (i s : Nat) : DpWorld :=
  if dp_resolves_to_class w i then ⟨w.classSubscribers ++ [s], w.instances⟩
  else ⟨w.classSubscribers,
    dp_modify_inst w.instances i (fun inst => ⟨inst.ownAttrNames, inst.ownSubscribers ++ [s]⟩)⟩

/-- `remove_subscriber` called through instance `i` (dp_socket.py lines 345-346). -/
def dp_remove_subscriber (w : DpWorld) (i s : Nat) : DpWorld :=
  if dp_resolves_to_class w i then ⟨w.classSubscribers.erase s, w.instances⟩
  else ⟨w.classSubscribers,
    dp_modify_inst w.instances i (fun inst => ⟨inst.ownAttrNames, inst.ownSubscribers.erase s⟩)⟩

/-- The subscriber snapshot `list(self.datagram_subscribers)` that
`datagram_received` on instance `i` delivers to (dp_socket.py line 428). -/
def dp_delivered (w : DpWorld) (i : Nat) : List Nat :=
  if dp_resolves_to_class w i then w.classSubscribers
  else ((w.instances.get? i).map DpSocketInstance.ownSubscribers).getD []

inductive DpOp where
  | newSocket
  | addSub (i s : Nat)
  | removeSub (i s : Nat)
deriving DecidableEq, Repr

def dp_apply (w : DpWorld) : DpOp → DpWorld
  | .newSocket => dp_socket_new w
  | .addSub i s => dp_add_subscriber w i s
  | .removeSub i s => dp_remove_subscriber w i s

def dp_run (w : DpWorld) (ops : List DpOp) : DpWorld := ops.foldl dp_apply w

/-- No instance ever gets its own `datagram_subscribers` attribute. -/
def dp_world_inv (w : DpWorld) : Prop :=
  ∀ inst ∈ w.instances, inst.ownAttrNames.contains ("datagram_subscribers") = false

theorem dp_modify_inst_names (l : List DpSocketInstance) (i : Nat)
    (f : DpSocketInstance → DpSocketInstance)
    (hf : ∀ y, (f y).ownAttrNames = y.ownAttrNames) :
    ∀ x ∈ dp_modify_inst l i f, ∃ y ∈ l, x.ownAttrNames = y.ownAttrNames := by
  induction l generalizing i with
  | nil => intro x hx; cases hx
  | cons a as ih =>
    intro x hx
    cases i with
    | zero =>
      rcases List.mem_cons.mp hx with hx | hx
      · exact ⟨a, List.mem_cons_self _ _, by rw [hx]; exact hf a⟩
      · exact ⟨x, List.mem_cons_of_mem _ hx, rfl⟩
    | succ n =>
      rcases List.mem_cons.mp hx with hx | hx
      · exact ⟨a, List.mem_cons_self _ _, by rw [hx]⟩
      · obtain ⟨y, hy, he⟩ := ih n x hx
        exact ⟨y, List.mem_cons_of_mem _ hy, he⟩

theorem dp_apply_inv (w : DpWorld) (op : DpOp) (h : dp_world_inv w) :
    dp_world_inv (dp_apply w op) := by
  cases op with
  | newSocket =>
    intro inst hinst
    rcases List.mem_append.mp hinst with hm | hm
    · exact h inst hm
    · rcases List.mem_cons.mp hm with hm | hm
      · rw [hm]; decide
      · cases hm
  | addSub i s =>
    show dp_world_inv (dp_add_subscriber w i s)
    unfold dp_add_subscriber
    split_ifs
    · exact h
    · intro inst hinst
      obtain ⟨y, hy, he⟩ := dp_modify_inst_names w.instances i
        (fun inst => ⟨inst.ownAttrNames, inst.ownSubscribers ++ [s]⟩) (fun y => rfl) inst hinst
      rw [he]; exact h y hy
  | removeSub i s =>
    show dp_world_inv (dp_remove_subscriber w i s)
    unfold dp_remove_subscriber
    split_ifs
    · exact h
    · intro inst hinst
      obtain ⟨y, hy, he⟩ := dp_modify_inst_names w.instances i
        (fun inst => ⟨inst.ownAttrNames, inst.ownSubscribers.erase s⟩) (fun y => rfl) inst hinst
      rw [he]; exact h y hy

theorem dp_run_inv (ops : List DpOp) (w : DpWorld) (h : dp_world_inv w) :
    dp_world_inv (dp_run w ops) := by
  induction ops generalizing w with
  | nil => exact h
  | cons op rest ih => exact ih (dp_apply w op) (dp_apply_inv w op h)

theorem dp_inv_resolves_class (w : DpWorld) (h : dp_world_inv w) (i : Nat) :
    dp_resolves_to_class w i = true := by
  unfold dp_resolves_to_class
  cases hg : w.instances.get? i with
  | none => rfl
  | some inst =>
    have hm : inst ∈ w.instances := List.get?_mem hg
    simp only
    rw [h inst hm]
    rfl

/-- C10: because `datagram_subscribers` is initialized as a class attribute and
never rebound per instance, every `AnthemDpSocket` instance in a process
resolves `self.datagram_subscribers` to the one class-level set: after any
sequence of socket creations and subscriber add/removes, the subscriber
snapshot `datagram_received` delivers to is identical through every instance;
in particular a subscriber added through one instance is delivered datagrams
arriving at another, and removing it through any instance removes it for all. -/
theorem C10_shared_subscriber_set (ops : List DpOp) (i j s : Nat) :
    dp_delivered (dp_run dp_empty_world ops) i = dp_delivered (dp_run dp_empty_world ops) j ∧
    dp_delivered (dp_run dp_empty_world
      [DpOp.newSocket, DpOp.newSocket, DpOp.addSub 0 s]) 1 = [s] ∧
    dp_delivered (dp_run dp_empty_world
      [DpOp.newSocket, DpOp.newSocket, DpOp.addSub 0 s, DpOp.removeSub 1 s]) 0 = [] := by
  have hinv : dp_world_inv (dp_run dp_empty_world ops) :=
    dp_run_inv ops dp_empty_world (by intro inst h; cases h)
  refine ⟨?_, ?_, ?_⟩
  · unfold dp_delivered
    rw [dp_inv_resolves_class _ hinv i, dp_inv_resolves_class _ hinv j]
    simp
  · rfl
  · show ([s].erase s) = []
    simp

end AnthemReceiver
